import Mathlib

/-!
# esp-improv-lib: the Improv BLE provisioning service

A shallow embedding of `ImprovBleService` (`src/src/improv_ble.cpp`,
`src/include/improv_ble.h`).  The service object becomes a record and every
member function becomes a function on that record.

* Calls that leave the service (the status subscriber, the NimBLE
  characteristics and advertiser, the ESP-IDF Wi-Fi driver) are appended to the
  `trace` field in program order.
* What a collaborator hands back (pointers from NimBLE, `esp_err_t` codes from
  the event loop and the Wi-Fi driver, the command decoded by the Improv SDK
  codec) is an explicit argument of the function that asks for it.
* Strings and byte vectors are lists of byte values.
* The status subscriber only observes: it does not call back into the service.
  The advertiser runs or stops only when the service starts or stops it.

The Improv SDK (`improv.h`: the enumerations, `parse_improv_data`,
`build_rpc_response`) is a dependency of the sources, not part of them.
-/

namespace improv

/-- Modelled from the spec: `enum State` of the Improv SDK header `improv.h`,
which is included by the sources but not part of them.  Spec §3 lists the five
states in this order. -/
inductive State where
  | STATE_STOPPED
  | STATE_AWAITING_AUTHORIZATION
  | STATE_AUTHORIZED
  | STATE_PROVISIONING
  | STATE_PROVISIONED
  deriving DecidableEq

/-- Modelled from the spec: the wire byte of a state, `static_cast<uint8_t>(state)`;
the enumerators are numbered in the order of spec §3. -/
def State.toByte : State → Nat
  | .STATE_STOPPED => 0
  | .STATE_AWAITING_AUTHORIZATION => 1
  | .STATE_AUTHORIZED => 2
  | .STATE_PROVISIONING => 3
  | .STATE_PROVISIONED => 4

/-- Modelled from the spec: `enum Error` of the Improv SDK header `improv.h`;
spec §3 lists the five errors in this order. -/
inductive Error where
  | ERROR_NONE
  | ERROR_INVALID_RPC
  | ERROR_UNKNOWN_RPC
  | ERROR_UNABLE_TO_CONNECT
  | ERROR_NOT_AUTHORIZED
  deriving DecidableEq

/-- Modelled from the spec: the wire byte of an error, `static_cast<uint8_t>(error)`. -/
def Error.toByte : Error → Nat
  | .ERROR_NONE => 0
  | .ERROR_INVALID_RPC => 1
  | .ERROR_UNKNOWN_RPC => 2
  | .ERROR_UNABLE_TO_CONNECT => 3
  | .ERROR_NOT_AUTHORIZED => 4

/-- Modelled from the spec: `enum Command : uint8_t` of `improv.h`, a command
code byte.  The sources name four enumerators of it as `case` labels. -/
abbrev Command := Nat

/-- Modelled from the spec: command code of `WifiSettings` in the protocol's
published command-code table. -/
def WIFI_SETTINGS : Command := 0x01

/-- Modelled from the spec: command code of `Identify`. -/
def IDENTIFY : Command := 0x02

/-- Modelled from the spec: command code of `GetDeviceInfo`. -/
def GET_DEVICE_INFO : Command := 0x03

/-- Modelled from the spec: the code under which the codec reports a checksum
mismatch. -/
def BAD_CHECKSUM : Command := 0xFF

/-- Modelled from the spec: `struct ImprovCommand` of `improv.h`, the value
`improv::parse_improv_data` returns; the sources read its three members. -/
structure ImprovCommand where
  command : Command
  ssid : List Nat
  password : List Nat
  deriving DecidableEq

/-- Modelled from the spec: `improv::build_rpc_response` of the Improv SDK
(not part of the sources).  Spec §4.1: `[type:1][total_length:1]`, then the
text fields, each prefixed by its length byte, then the checksum byte, the sum
modulo 256 of everything before it.  Length bytes are `uint8_t`. -/
def build_rpc_response (command : Command) (datum : List (List Nat)) : List Nat :=
  let body := (datum.map (fun str => (str.length % 256) :: str)).flatten
  let length := (datum.map (fun str => str.length % 256 + 1)).sum
  let out := command % 256 :: length % 256 :: body
  out ++ [out.sum % 256]

end improv

namespace improv_ble

open improv

/-- The `esp_err_t` result code of ESP-IDF calls. -/
abbrev esp_err_t := Int

/-- The success code of ESP-IDF. -/
def ESP_OK : esp_err_t := 0

/-- The generic failure code of ESP-IDF. -/
def ESP_FAIL : esp_err_t := -1

/-- The `struct DeviceInfo` of `improv_ble.h`. -/
structure DeviceInfo where
  firmware_name : List Nat
  firmware_version : List Nat
  hardware_variant : List Nat
  device_name : List Nat
  deriving DecidableEq

/-- The `struct StatusUpdate` of `improv_ble.h`: the snapshot a subscriber receives. -/
structure StatusUpdate where
  state : State
  error : Error
  deriving DecidableEq

/-- A call that leaves the service, in the order the code makes it. -/
inductive Effect where
  /-- The call `_status_callback(StatusUpdate{...})` -/
  | status_callback (update : StatusUpdate)
  /-- The call `_status_char->setValue(&_status_value, 1)` -/
  | status_setValue (value : Nat)
  /-- The call `_status_char->notify()` -/
  | status_notify
  /-- The call `_error_char->setValue(&_error_value, 1)` -/
  | error_setValue (value : Nat)
  /-- The call `_error_char->notify()` -/
  | error_notify
  /-- The call `_rpc_result_char->setValue(payload.data(), payload.size())` -/
  | rpc_result_setValue (payload : List Nat)
  /-- The call `_rpc_result_char->notify()` -/
  | rpc_result_notify
  /-- The call `_capabilities_char->setValue(&_capabilities, 1)` -/
  | capabilities_setValue (value : Nat)
  /-- The call `esp_wifi_set_mode(WIFI_MODE_STA)` -/
  | esp_wifi_set_mode
  /-- The call `esp_wifi_set_config(WIFI_IF_STA, &config)` with the station ssid and password -/
  | esp_wifi_set_config (ssid password : List Nat)
  /-- The call `esp_wifi_connect()` -/
  | esp_wifi_connect
  /-- The call `_advertising->start()` -/
  | advertising_start
  /-- The call `_advertising->stop()` -/
  | advertising_stop
  /-- The call `_advertising->setAdvertisementData(adv_data)` with the service data of `adv_data` -/
  | setAdvertisementData (service_data : List Nat)
  /-- The call `_advertising->setScanResponseData(scan_data)` with the name of `scan_data`, if set -/
  | setScanResponseData (name : Option (List Nat))
  deriving DecidableEq

/-- The object `ImprovBleService` (`improv_ble.h`).  A pointer member is `true`
when it is non-null and the subscriber is `true` when a callable is stored.
`isAdvertising` is what `_advertising->isAdvertising()` answers and `trace`
is the record of outward calls; neither is a member of the C++ class. -/
structure ImprovBleService where
  _device_info : DeviceInfo
  _status_callback : Bool
  _server : Bool
  _service : Bool
  _status_char : Bool
  _error_char : Bool
  _rpc_char : Bool
  _rpc_result_char : Bool
  _capabilities_char : Bool
  _advertising : Bool
  _rpc_callbacks : Bool
  _server_callbacks : Bool
  _state : State
  _error_state : Error
  _capabilities : Nat
  _advertising_enabled : Bool
  _wifi_event_handler : Bool
  _ip_event_handler : Bool
  _pending_ssid : List Nat
  _pending_password : List Nat
  _status_value : Nat
  _error_value : Nat
  isAdvertising : Bool
  trace : List Effect
  deriving DecidableEq

/-- The constructor `ImprovBleService::ImprovBleService(DeviceInfo info)` with the
default member initialisers of `improv_ble.h`. -/
def ImprovBleService.new (info : DeviceInfo) : ImprovBleService where
  _device_info := info
  _status_callback := false
  _server := false
  _service := false
  _status_char := false
  _error_char := false
  _rpc_char := false
  _rpc_result_char := false
  _capabilities_char := false
  _advertising := false
  _rpc_callbacks := false
  _server_callbacks := false
  _state := State.STATE_STOPPED
  _error_state := Error.ERROR_NONE
  _capabilities := 0
  _advertising_enabled := false
  _wifi_event_handler := false
  _ip_event_handler := false
  _pending_ssid := []
  _pending_password := []
  _status_value := State.STATE_STOPPED.toByte
  _error_value := Error.ERROR_NONE.toByte
  isAdvertising := false
  trace := []

/-- Record one outward call. -/
def ImprovBleService.emit (s : ImprovBleService) (e : Effect) : ImprovBleService :=
  { s with trace := s.trace ++ [e] }

/-- The accessor `ImprovBleService::current_state`. -/
def current_state (s : ImprovBleService) : State := s._state

/-- The accessor `ImprovBleService::current_error`. -/
def current_error (s : ImprovBleService) : Error := s._error_state

/-- The member function `ImprovBleService::dispatch_status_update`. -/
def dispatch_status_update (s : ImprovBleService) : ImprovBleService :=
  if !s._status_callback then s
  else s.emit (Effect.status_callback { state := s._state, error := s._error_state })

/-- The member function `ImprovBleService::notify_state`. -/
def notify_state (state : State) (s : ImprovBleService) : ImprovBleService :=
  if s._state = state then dispatch_status_update s
  else
    let s1 := { s with _state := state, _status_value := state.toByte }
    let s2 :=
      if s1._status_char then
        (s1.emit (Effect.status_setValue s1._status_value)).emit Effect.status_notify
      else s1
    dispatch_status_update s2

/-- The member function `ImprovBleService::notify_error`. -/
def notify_error (error : Error) (s : ImprovBleService) : ImprovBleService :=
  if s._error_state = error then dispatch_status_update s
  else
    let s1 := { s with _error_state := error, _error_value := error.toByte }
    let s2 :=
      if s1._error_char then
        (s1.emit (Effect.error_setValue s1._error_value)).emit Effect.error_notify
      else s1
    dispatch_status_update s2

/-- The member function `ImprovBleService::send_rpc_response`. -/
def send_rpc_response (payload : List Nat) (s : ImprovBleService) : ImprovBleService :=
  if !s._rpc_result_char then s
  else
    let s1 := s.emit (Effect.rpc_result_setValue payload)
    if !payload.isEmpty then s1.emit Effect.rpc_result_notify else s1

/-- The member function `ImprovBleService::set_status_callback`; `cb` tells
whether the callable handed in is non-empty. -/
def set_status_callback (cb : Bool) (s : ImprovBleService) : ImprovBleService :=
  dispatch_status_update { s with _status_callback := cb }

/-- What the NimBLE calls made by `ensure_server` hand back: `true` for a
non-null pointer. -/
structure NimBLEResults where
  createServer : Bool
  createService : Bool
  status_char : Bool
  error_char : Bool
  rpc_char : Bool
  rpc_result_char : Bool
  capabilities_char : Bool
  deriving DecidableEq

/-- The member function `ImprovBleService::ensure_server`. -/
def ensure_server (ble : NimBLEResults) (s : ImprovBleService) : esp_err_t × ImprovBleService :=
  if s._server then (ESP_OK, s)
  else
    let s1 := { s with _server := ble.createServer }
    if !s1._server then (ESP_FAIL, s1)
    else
      let s2 := { s1 with _server_callbacks := true }
      let s3 := { s2 with _service := ble.createService }
      if !s3._service then (ESP_FAIL, s3)
      else
        let s4 := { s3 with
          _status_char := ble.status_char
          _error_char := ble.error_char
          _rpc_char := ble.rpc_char
          _rpc_result_char := ble.rpc_result_char
          _capabilities_char := ble.capabilities_char }
        if !s4._status_char || !s4._error_char || !s4._rpc_char || !s4._rpc_result_char
            || !s4._capabilities_char then (ESP_FAIL, s4)
        else
          let s5 := { s4 with _rpc_callbacks := true }
          let s6 := s5.emit (Effect.status_setValue s5._status_value)
          let s7 := s6.emit (Effect.error_setValue s6._error_value)
          let s8 := s7.emit (Effect.rpc_result_setValue [])
          let s9 := s8.emit (Effect.capabilities_setValue s8._capabilities)
          (ESP_OK, { s9 with _advertising := true })

/-- What the two `esp_event_handler_instance_register` calls of
`register_event_handlers` hand back. -/
structure EventLoopResults where
  register_wifi : esp_err_t
  register_ip : esp_err_t
  deriving DecidableEq

/-- The member function `ImprovBleService::register_event_handlers`. -/
def register_event_handlers (ev : EventLoopResults) (s : ImprovBleService) :
    esp_err_t × ImprovBleService :=
  let wifi_needed := !s._wifi_event_handler
  if wifi_needed && ev.register_wifi ≠ ESP_OK then (ev.register_wifi, s)
  else
    let registered_wifi := wifi_needed
    let s1 := if wifi_needed then { s with _wifi_event_handler := true } else s
    if !s1._ip_event_handler then
      if ev.register_ip ≠ ESP_OK then
        (ev.register_ip,
          if registered_wifi then { s1 with _wifi_event_handler := false } else s1)
      else (ESP_OK, { s1 with _ip_event_handler := true })
    else (ESP_OK, s1)

/-- The member function `ImprovBleService::update_advertisement_payload`. -/
def update_advertisement_payload (s : ImprovBleService) : ImprovBleService :=
  if !s._advertising_enabled || !s._advertising || !s._service then s
  else
    let service_data := [s._status_value, s._capabilities] ++ List.replicate 4 0
    let s1 := s.emit (Effect.setAdvertisementData service_data)
    let name := if !s1._device_info.device_name.isEmpty then some s1._device_info.device_name
      else none
    s1.emit (Effect.setScanResponseData name)

/-- The member function `ImprovBleService::ensure_advertising`. -/
def ensure_advertising (s : ImprovBleService) : ImprovBleService :=
  if !s._advertising_enabled || !s._advertising then s
  else if !s.isAdvertising then
    { s.emit Effect.advertising_start with isAdvertising := true }
  else s

/-- The callback `ServerCallbacks::onDisconnect`. -/
def onDisconnect (s : ImprovBleService) : ImprovBleService :=
  ensure_advertising s

/-- The member function `ImprovBleService::start`. -/
def start (ble : NimBLEResults) (ev : EventLoopResults) (s : ImprovBleService) :
    esp_err_t × ImprovBleService :=
  let r1 := ensure_server ble s
  if r1.1 ≠ ESP_OK then r1
  else
    let r2 := register_event_handlers ev r1.2
    if r2.1 ≠ ESP_OK then r2
    else
      let s1 := { r2.2 with _advertising_enabled := true }
      let s2 := notify_error Error.ERROR_NONE s1
      let s3 := notify_state State.STATE_AUTHORIZED s2
      let s4 := update_advertisement_payload s3
      (ESP_OK, ensure_advertising s4)

/-- The member function `ImprovBleService::stop`. -/
def stop (s : ImprovBleService) : ImprovBleService :=
  let s1 := { s with _advertising_enabled := false }
  let s2 :=
    if s1._advertising && s1.isAdvertising then
      { s1.emit Effect.advertising_stop with isAdvertising := false }
    else s1
  notify_error Error.ERROR_NONE (notify_state State.STATE_STOPPED s2)

/-- The C library call `strncpy(dst, src.c_str(), n)` into a zeroed buffer, read
back as a C string: the bytes of `src` before its first NUL, at most `n`. -/
def strncpy (src : List Nat) (n : Nat) : List Nat :=
  (src.takeWhile (fun c => c != 0)).take n

/-- Size of `wifi_sta_config_t::ssid` in ESP-IDF (`uint8_t ssid[32]`). -/
def sizeof_sta_ssid : Nat := 32

/-- Size of `wifi_sta_config_t::password` in ESP-IDF (`uint8_t password[64]`). -/
def sizeof_sta_password : Nat := 64

/-- What the three driver calls made by `begin_wifi_connection` hand back. -/
structure WifiResults where
  set_mode : esp_err_t
  set_config : esp_err_t
  connect : esp_err_t
  deriving DecidableEq

/-- The member function `ImprovBleService::begin_wifi_connection`. -/
def begin_wifi_connection (wifi : WifiResults) (ssid password : List Nat)
    (s : ImprovBleService) : ImprovBleService :=
  let s1 := { s with _pending_ssid := ssid, _pending_password := password }
  let s2 := notify_state State.STATE_PROVISIONING s1
  let s3 := notify_error Error.ERROR_NONE s2
  let s4 := s3.emit Effect.esp_wifi_set_mode
  let s5 := s4.emit (Effect.esp_wifi_set_config (strncpy ssid (sizeof_sta_ssid - 1))
    (strncpy password (sizeof_sta_password - 1)))
  if wifi.set_config ≠ ESP_OK then
    notify_state State.STATE_AUTHORIZED (notify_error Error.ERROR_UNABLE_TO_CONNECT s5)
  else
    let s6 := s5.emit Effect.esp_wifi_connect
    if wifi.connect ≠ ESP_OK then
      notify_state State.STATE_AUTHORIZED (notify_error Error.ERROR_UNABLE_TO_CONNECT s6)
    else s6

/-- The member function `ImprovBleService::handle_improv_command`.  The codec
`improv::parse_improv_data` belongs to the Improv SDK and is an argument. -/
def handle_improv_command (parse_improv_data : List Nat → ImprovCommand) (wifi : WifiResults)
    (data : List Nat) (s : ImprovBleService) : ImprovBleService :=
  if data.length < 3 then notify_error Error.ERROR_INVALID_RPC s
  else
    let command := parse_improv_data data
    if command.command = BAD_CHECKSUM then notify_error Error.ERROR_INVALID_RPC s
    else if command.command = WIFI_SETTINGS then
      begin_wifi_connection wifi command.ssid command.password s
    else if command.command = IDENTIFY then s
    else if command.command = GET_DEVICE_INFO then
      send_rpc_response
        (build_rpc_response GET_DEVICE_INFO
          [s._device_info.firmware_name, s._device_info.firmware_version,
           s._device_info.hardware_variant, s._device_info.device_name])
        (notify_error Error.ERROR_NONE s)
    else notify_error Error.ERROR_UNKNOWN_RPC s

/-- The callback `RpcCallbacks::onWrite`. -/
def onWrite (parse_improv_data : List Nat → ImprovCommand) (wifi : WifiResults)
    (value : List Nat) (s : ImprovBleService) : ImprovBleService :=
  if value.isEmpty then s else handle_improv_command parse_improv_data wifi value s

/-- The events `handle_wifi_event` tells apart by `(event_base, event_id)`. -/
inductive WifiEvent where
  /-- The pair `WIFI_EVENT`, `WIFI_EVENT_STA_START`. -/
  | sta_start
  /-- The pair `IP_EVENT`, `IP_EVENT_STA_GOT_IP`; `ip_str` is the text left in the
  buffer `ip_str` by `esp_ip4addr_ntoa`, empty when `event_data` is null. -/
  | sta_got_ip (ip_str : List Nat)
  /-- Any other pair. -/
  | other
  deriving DecidableEq

/-- The text `"http://"`. -/
def http_scheme : List Nat := [104, 116, 116, 112, 58, 47, 47]

/-- The member function `ImprovBleService::handle_wifi_event`. -/
def handle_wifi_event (event : WifiEvent) (s : ImprovBleService) : ImprovBleService :=
  match event with
  | .sta_start =>
    if s._state = State.STATE_PROVISIONING then s.emit Effect.esp_wifi_connect else s
  | .sta_got_ip ip_str =>
    let s1 := notify_error Error.ERROR_NONE s
    let s2 := notify_state State.STATE_PROVISIONED s1
    let urls : List (List Nat) := if ip_str.length > 0 then [http_scheme ++ ip_str] else []
    let s3 := send_rpc_response (build_rpc_response WIFI_SETTINGS urls) s2
    let s4 :=
      if !s3._pending_ssid.isEmpty || !s3._pending_password.isEmpty then
        let s3a := s3.emit (Effect.esp_wifi_set_config
          (strncpy s3._pending_ssid (sizeof_sta_ssid - 1))
          (strncpy s3._pending_password (sizeof_sta_password - 1)))
        { s3a with _pending_ssid := [], _pending_password := [] }
      else s3
    let s5 := { s4 with _advertising_enabled := false }
    if s5._advertising && s5.isAdvertising then
      { s5.emit Effect.advertising_stop with isAdvertising := false }
    else s5
  | .other => s

/-- The free function `event_handler`; `service` is `none` for a null `arg`. -/
def event_handler (service : Option ImprovBleService) (event : WifiEvent) :
    Option ImprovBleService :=
  service.map (handle_wifi_event event)

/-- The outward calls made between the service value `s` and a later value `s'`. -/
def effects_since (s s' : ImprovBleService) : List Effect :=
  s'.trace.drop s.trace.length

/-- The snapshots handed to the status subscriber, in order. -/
def subscriber_updates (es : List Effect) : List StatusUpdate :=
  es.filterMap (fun e => match e with
    | Effect.status_callback u => some u
    | _ => none)

/-- The calls on the Status endpoint (`setValue` and `notify`), in order. -/
def status_writes (es : List Effect) : List Effect :=
  es.filter (fun e => match e with
    | Effect.status_setValue _ => true
    | Effect.status_notify => true
    | _ => false)

/-- The payloads written to the Result endpoint, in order. -/
def rpc_frames (es : List Effect) : List (List Nat) :=
  es.filterMap (fun e => match e with
    | Effect.rpc_result_setValue payload => some payload
    | _ => none)

/-- The number of notifications sent on the Result endpoint. -/
def rpc_notifications (es : List Effect) : Nat :=
  es.count Effect.rpc_result_notify

/-- The station configurations handed to `esp_wifi_set_config`, in order. -/
def wifi_configs (es : List Effect) : List (List Nat × List Nat) :=
  es.filterMap (fun e => match e with
    | Effect.esp_wifi_set_config ssid password => some (ssid, password)
    | _ => none)

/-- The service data of the advertisements handed to the advertiser, in order. -/
def adv_payloads (es : List Effect) : List (List Nat) :=
  es.filterMap (fun e => match e with
    | Effect.setAdvertisementData d => some d
    | _ => none)

/-- The service data of the advertisement last handed to the advertiser, if any. -/
def advertised_service_data (s : ImprovBleService) : Option (List Nat) :=
  (adv_payloads s.trace).getLast?

/-- Two service values agree on what no command or event touches: the
advertisements handed out so far, whether the RPC write callback, the Result
endpoint and the server exist, and the device description. -/
def same_wiring (s s' : ImprovBleService) : Prop :=
  adv_payloads s'.trace = adv_payloads s.trace
    ∧ s'._rpc_callbacks = s._rpc_callbacks
    ∧ s'._rpc_result_char = s._rpc_result_char
    ∧ s'._server = s._server
    ∧ s'._device_info = s._device_info

/-- The write callback is installed only on a service whose server and Result
endpoint exist. -/
def callbacks_wired (s : ImprovBleService) : Prop :=
  s._rpc_callbacks = true → s._server = true ∧ s._rpc_result_char = true

/-- The calls appended by `dispatch_status_update`. -/
def dispatch_effects (s : ImprovBleService) : List Effect :=
  if s._status_callback then
    [Effect.status_callback { state := s._state, error := s._error_state }]
  else []

/-- The calls appended by `notify_state state`. -/
def notify_state_effects (state : State) (s : ImprovBleService) : List Effect :=
  (if s._state = state then []
    else if s._status_char then [Effect.status_setValue state.toByte, Effect.status_notify]
    else [])
  ++ (if s._status_callback then
        [Effect.status_callback { state := state, error := s._error_state }]
      else [])

/-- The calls appended by `notify_error error`. -/
def notify_error_effects (error : Error) (s : ImprovBleService) : List Effect :=
  (if s._error_state = error then []
    else if s._error_char then [Effect.error_setValue error.toByte, Effect.error_notify]
    else [])
  ++ (if s._status_callback then
        [Effect.status_callback { state := s._state, error := error }]
      else [])

/-- The calls appended by `send_rpc_response payload`. -/
def send_rpc_effects (payload : List Nat) (s : ImprovBleService) : List Effect :=
  if s._rpc_result_char then
    Effect.rpc_result_setValue payload ::
      (if payload.isEmpty then [] else [Effect.rpc_result_notify])
  else []

/-- The block of `handle_wifi_event` that persists and clears the pending
credentials (the `if (!_pending_ssid.empty() || !_pending_password.empty())`
statement), on its own. -/
def persist_pending (s : ImprovBleService) : ImprovBleService :=
  if !s._pending_ssid.isEmpty || !s._pending_password.isEmpty then
    let s1 := s.emit (Effect.esp_wifi_set_config
      (strncpy s._pending_ssid (sizeof_sta_ssid - 1))
      (strncpy s._pending_password (sizeof_sta_password - 1)))
    { s1 with _pending_ssid := [], _pending_password := [] }
  else s

/-- The calls appended by `persist_pending`. -/
def persist_effects (s : ImprovBleService) : List Effect :=
  if s._pending_ssid = [] ∧ s._pending_password = [] then []
  else [Effect.esp_wifi_set_config (strncpy s._pending_ssid (sizeof_sta_ssid - 1))
          (strncpy s._pending_password (sizeof_sta_password - 1))]

/-- The closing block of `handle_wifi_event` (and opening block of `stop`) that
clears the advertising flag and stops a running advertiser, on its own. -/
def disable_advertising (s : ImprovBleService) : ImprovBleService :=
  let s1 := { s with _advertising_enabled := false }
  if s1._advertising && s1.isAdvertising then
    { s1.emit Effect.advertising_stop with isAdvertising := false }
  else s1

/-- The calls appended by `disable_advertising`. -/
def disable_effects (s : ImprovBleService) : List Effect :=
  if s._advertising = true ∧ s.isAdvertising = true then [Effect.advertising_stop] else []

/-- One thing that can happen to the service: a call of its public interface or
a callback from a collaborator. -/
inductive Input where
  /-- A call of `start()`, with what NimBLE and the event loop answer. -/
  | start (ble : NimBLEResults) (ev : EventLoopResults)
  /-- A call of `stop()`. -/
  | stop
  /-- A call of `set_status_callback(cb)`. -/
  | set_status_callback (cb : Bool)
  /-- A command delivered to `handle_improv_command`, with what the Wi-Fi driver
  answers should it be asked. -/
  | command (wifi : WifiResults) (data : List Nat)
  /-- A network event delivered to `handle_wifi_event`. -/
  | wifi_event (event : WifiEvent)
  /-- A client disconnecting (`ServerCallbacks::onDisconnect`). -/
  | disconnect
  deriving DecidableEq

/-- Whether an input is a call of `start()`. -/
def Input.is_start : Input → Bool
  | .start _ _ => true
  | _ => false

/-- The service after one input. -/
def step (parse_improv_data : List Nat → ImprovCommand) (input : Input)
    (s : ImprovBleService) : ImprovBleService :=
  match input with
  | .start ble ev => (start ble ev s).2
  | .stop => stop s
  | .set_status_callback cb => set_status_callback cb s
  | .command wifi data => handle_improv_command parse_improv_data wifi data s
  | .wifi_event event => handle_wifi_event event s
  | .disconnect => onDisconnect s

/-- The service after a sequence of inputs, first to last. -/
def run (parse_improv_data : List Nat → ImprovCommand) (inputs : List Input)
    (s : ImprovBleService) : ImprovBleService :=
  inputs.foldl (fun acc input => step parse_improv_data input acc) s

/-- The text fields of a response payload read back per the response layout of
spec §4.1: each field is one length byte followed by that many bytes.  `fuel`
bounds the number of fields read. -/
def decode_fields : Nat → List Nat → Option (List (List Nat))
  | _, [] => some []
  | 0, _ :: _ => none
  | fuel + 1, len :: rest =>
    if rest.length < len then none
    else (decode_fields fuel (rest.drop len)).map (fun fields => rest.take len :: fields)

/-- A response frame read back per the response layout of spec §4.1:
`[type][total_length]`, `total_length` payload bytes holding the length-prefixed
fields, and the checksum byte, the sum modulo 256 of all bytes before it. -/
def decode_rpc_response (frame : List Nat) : Option (Command × List (List Nat)) :=
  match frame with
  | type :: length :: rest =>
    if rest.isEmpty then none
    else if rest.dropLast.length ≠ length then none
    else if rest.getLast? ≠ some (frame.dropLast.sum % 256) then none
    else (decode_fields rest.dropLast.length rest.dropLast).map (fun fields => (type, fields))
  | _ => none

/-- The values written to the Status endpoint, in order. -/
def status_values (es : List Effect) : List Nat :=
  es.filterMap (fun e => match e with
    | Effect.status_setValue v => some v
    | _ => none)

/-- The values written to the Error endpoint, in order. -/
def error_values (es : List Effect) : List Nat :=
  es.filterMap (fun e => match e with
    | Effect.error_setValue v => some v
    | _ => none)

/-- The value the Status endpoint holds: the last one written to it, if any. -/
def published_status (s : ImprovBleService) : Option Nat :=
  (status_values s.trace).getLast?

/-- The value the Error endpoint holds: the last one written to it, if any. -/
def published_error (s : ImprovBleService) : Option Nat :=
  (error_values s.trace).getLast?

/-- An operation on the service: an input, or a direct call of one of the two
private notifiers. -/
inductive Operation where
  /-- One of the inputs: `start`, `stop`, `set_status_callback`,
  `handle_improv_command`, `handle_wifi_event`, a disconnect. -/
  | input (i : Input)
  /-- A call of `notify_state(state)`. -/
  | notify_state (state : State)
  /-- A call of `notify_error(error)`. -/
  | notify_error (error : Error)
  deriving DecidableEq

/-- The service after one operation. -/
def apply_operation (parse_improv_data : List Nat → ImprovCommand) (op : Operation)
    (s : ImprovBleService) : ImprovBleService :=
  match op with
  | .input i => step parse_improv_data i s
  | .notify_state state => notify_state state s
  | .notify_error error => notify_error error s

/-- The service after a sequence of operations, first to last. -/
def run_operations (parse_improv_data : List Nat → ImprovCommand) (ops : List Operation)
    (s : ImprovBleService) : ImprovBleService :=
  ops.foldl (fun acc op => apply_operation parse_improv_data op acc) s

/-- The cached wire bytes mirror state and error, and so does whatever was last
written to the Status and Error endpoints; an endpoint that was written to
exists, and an endpoint exists only with the server. -/
def wire_ok (s : ImprovBleService) : Prop :=
  s._status_value = s._state.toByte
    ∧ s._error_value = s._error_state.toByte
    ∧ (s._status_char = true → s._server = true)
    ∧ (s._error_char = true → s._server = true)
    ∧ (status_values s.trace = []
        ∨ ((status_values s.trace).getLast? = some s._status_value
            ∧ s._status_char = true))
    ∧ (error_values s.trace = []
        ∨ ((error_values s.trace).getLast? = some s._error_value
            ∧ s._error_char = true))

/-- Two service values agree on state, error, their cached bytes, the
Status and Error endpoints and all that was written to them, and the server. -/
def same_bytes (s s' : ImprovBleService) : Prop :=
  s'._state = s._state
    ∧ s'._error_state = s._error_state
    ∧ s'._status_value = s._status_value
    ∧ s'._error_value = s._error_value
    ∧ s'._status_char = s._status_char
    ∧ s'._error_char = s._error_char
    ∧ s'._server = s._server
    ∧ status_values s'.trace = status_values s.trace
    ∧ error_values s'.trace = error_values s.trace

/-- A device description used in the worked runs: firmware "fw", version "1",
hardware "hw", name "dev". -/
def sample_info : DeviceInfo where
  firmware_name := [102, 119]
  firmware_version := [49]
  hardware_variant := [104, 119]
  device_name := [100, 101, 118]

/-- NimBLE creating every object it is asked for. -/
def ble_ok : NimBLEResults where
  createServer := true
  createService := true
  status_char := true
  error_char := true
  rpc_char := true
  rpc_result_char := true
  capabilities_char := true

/-- Both event-handler registrations succeeding. -/
def events_ok : EventLoopResults where
  register_wifi := ESP_OK
  register_ip := ESP_OK

/-- The Wi-Fi driver accepting mode, configuration and connect. -/
def wifi_ok : WifiResults where
  set_mode := ESP_OK
  set_config := ESP_OK
  connect := ESP_OK

/-- The Wi-Fi driver rejecting the configuration. -/
def wifi_config_rejected : WifiResults where
  set_mode := ESP_OK
  set_config := ESP_FAIL
  connect := ESP_OK

/-- The Wi-Fi driver accepting the configuration and rejecting the connect call. -/
def wifi_connect_rejected : WifiResults where
  set_mode := ESP_OK
  set_config := ESP_OK
  connect := ESP_FAIL

/-- The service of the worked runs right after a first successful `start()`. -/
def started_service : ImprovBleService :=
  (start ble_ok events_ok (ImprovBleService.new sample_info)).2

/-- The text "net". -/
def sample_ssid : List Nat := [110, 101, 116]

/-- The text "key". -/
def sample_password : List Nat := [107, 101, 121]

/-- NimBLE creating the server and then failing to create the service. -/
def ble_no_service : NimBLEResults where
  createServer := true
  createService := false
  status_char := true
  error_char := true
  rpc_char := true
  rpc_result_char := true
  capabilities_char := true

/-- The service after a `start()` that failed in `createService` followed by a
second `start()`, which returns `ESP_OK` because the server already exists. -/
def restarted_without_endpoints : ImprovBleService :=
  (start ble_ok events_ok (start ble_no_service events_ok (ImprovBleService.new sample_info)).2).2

/-- The text "192.0.2.5". -/
def sample_address : List Nat := [49, 57, 50, 46, 48, 46, 50, 46, 53]

/-- A `WifiSettings` frame carrying "net" and "key":
`[type, length, 3, n, e, t, 3, k, e, y, checksum]`. -/
def sample_wifi_frame : List Nat := [1, 8, 3, 110, 101, 116, 3, 107, 101, 121, 159]

/-- A codec answer for `sample_wifi_frame`: `WifiSettings` with "net" and "key". -/
def decode_as_wifi_settings : List Nat → ImprovCommand :=
  fun _ => { command := WIFI_SETTINGS, ssid := sample_ssid, password := sample_password }

/-- A codec answering with the given command code and no credentials. -/
def decode_as (code : Command) : List Nat → ImprovCommand :=
  fun _ => { command := code, ssid := [], password := [] }

/-- A frame of type `GetDeviceInfo` declaring five payload bytes and carrying none. -/
def sample_misfit_frame : List Nat := [3, 5, 8]

/-- A well-formed `GetDeviceInfo` frame: `[type, length, checksum]`. -/
def sample_device_info_frame : List Nat := [3, 0, 3]

/-- The started service after the client wrote `sample_wifi_frame` and the driver
accepted configuration and connect: a connection attempt is in flight. -/
def provisioning_service : ImprovBleService :=
  handle_improv_command decode_as_wifi_settings wifi_ok sample_wifi_frame started_service

/-- The service of the worked runs after the address "192.0.2.5" was acquired. -/
def provisioned_service : ImprovBleService :=
  handle_wifi_event (WifiEvent.sta_got_ip sample_address) provisioning_service

/-- A successful `start()`, an accepted `WifiSettings` command, then the client
disconnecting while the connection attempt is in flight. -/
def sample_operations : List Operation :=
  [Operation.input (Input.start ble_ok events_ok),
   Operation.input (Input.command wifi_ok sample_wifi_frame),
   Operation.input Input.disconnect]

/-! ## How each primitive changes the service -/

theorem dispatch_status_update_eq (s : ImprovBleService) :
    dispatch_status_update s = { s with trace := s.trace ++ dispatch_effects s } := by
  cases s
  unfold dispatch_status_update dispatch_effects ImprovBleService.emit
  split_ifs <;> simp_all

theorem notify_state_eq (state : State) (s : ImprovBleService) :
    notify_state state s =
      { s with
        _state := state
        _status_value := if s._state = state then s._status_value else state.toByte
        trace := s.trace ++ notify_state_effects state s } := by
  cases s
  unfold notify_state notify_state_effects
  simp only [dispatch_status_update_eq, dispatch_effects, ImprovBleService.emit]
  split_ifs <;> simp_all

theorem notify_error_eq (error : Error) (s : ImprovBleService) :
    notify_error error s =
      { s with
        _error_state := error
        _error_value := if s._error_state = error then s._error_value else error.toByte
        trace := s.trace ++ notify_error_effects error s } := by
  cases s
  unfold notify_error notify_error_effects
  simp only [dispatch_status_update_eq, dispatch_effects, ImprovBleService.emit]
  split_ifs <;> simp_all

theorem send_rpc_response_eq (payload : List Nat) (s : ImprovBleService) :
    send_rpc_response payload s =
      { s with trace := s.trace ++ send_rpc_effects payload s } := by
  cases s
  unfold send_rpc_response send_rpc_effects ImprovBleService.emit
  split_ifs <;> simp_all

/-! ## Stopping the service -/

/-- C9: `stop()` is unconditional: from every service value (any state, any
error, any pending credentials, advertising enabled or not) the result has the
advertising-enabled flag cleared, state `Stopped` and error `None`. -/
theorem stop_unconditional (s : ImprovBleService) :
    (stop s)._advertising_enabled = false
      ∧ current_state (stop s) = State.STATE_STOPPED
      ∧ current_error (stop s) = Error.ERROR_NONE := by
  unfold stop current_state current_error
  simp only [notify_state_eq, notify_error_eq, ImprovBleService.emit]
  split_ifs <;> simp

/-! ## Beginning a connection attempt -/

theorem begin_wifi_connection_config_failure (wifi : WifiResults) (ssid password : List Nat)
    (s : ImprovBleService) (h : wifi.set_config ≠ ESP_OK) :
    let s' := begin_wifi_connection wifi ssid password s
    s'._state = State.STATE_AUTHORIZED ∧ s'._error_state = Error.ERROR_UNABLE_TO_CONNECT
      ∧ s'._pending_ssid = ssid ∧ s'._pending_password = password := by
  unfold begin_wifi_connection
  simp only [notify_state_eq, notify_error_eq, ImprovBleService.emit, if_pos h]
  simp

theorem begin_wifi_connection_connect_failure (wifi : WifiResults) (ssid password : List Nat)
    (s : ImprovBleService) (h : wifi.set_config = ESP_OK) (h2 : wifi.connect ≠ ESP_OK) :
    let s' := begin_wifi_connection wifi ssid password s
    s'._state = State.STATE_AUTHORIZED ∧ s'._error_state = Error.ERROR_UNABLE_TO_CONNECT
      ∧ s'._pending_ssid = ssid ∧ s'._pending_password = password := by
  unfold begin_wifi_connection
  simp only [notify_state_eq, notify_error_eq, ImprovBleService.emit, if_pos h2, h]
  simp

/-- C3: a successful `begin_wifi_connection`: from every service value, also one
still holding earlier pending credentials, when `esp_wifi_set_config` and
`esp_wifi_connect` both return `ESP_OK` the pending credentials are exactly the
new `(ssid, password)`, the state is `Provisioning` and the error is `None`. -/
theorem begin_wifi_connection_success (wifi : WifiResults) (ssid password : List Nat)
    (s : ImprovBleService) (hconfig : wifi.set_config = ESP_OK)
    (hconnect : wifi.connect = ESP_OK) :
    (begin_wifi_connection wifi ssid password s)._pending_ssid = ssid
      ∧ (begin_wifi_connection wifi ssid password s)._pending_password = password
      ∧ current_state (begin_wifi_connection wifi ssid password s) = State.STATE_PROVISIONING
      ∧ current_error (begin_wifi_connection wifi ssid password s) = Error.ERROR_NONE := by
  unfold begin_wifi_connection current_state current_error
  simp only [notify_state_eq, notify_error_eq, ImprovBleService.emit, hconfig, hconnect]
  simp

theorem begin_wifi_connection_success_witness :
    wifi_ok.set_config = ESP_OK ∧ wifi_ok.connect = ESP_OK
      ∧ (begin_wifi_connection wifi_ok sample_ssid sample_password
            { started_service with _pending_ssid := [111, 108, 100],
                                   _pending_password := [112, 119] })._pending_ssid = sample_ssid
      ∧ (begin_wifi_connection wifi_ok sample_ssid sample_password
            { started_service with _pending_ssid := [111, 108, 100],
                                   _pending_password := [112, 119] })._pending_password
          = sample_password
      ∧ current_state (begin_wifi_connection wifi_ok sample_ssid sample_password
            { started_service with _pending_ssid := [111, 108, 100],
                                   _pending_password := [112, 119] }) = State.STATE_PROVISIONING
      ∧ current_error (begin_wifi_connection wifi_ok sample_ssid sample_password
            { started_service with _pending_ssid := [111, 108, 100],
                                   _pending_password := [112, 119] }) = Error.ERROR_NONE :=
  ⟨rfl, rfl, begin_wifi_connection_success wifi_ok sample_ssid sample_password _ rfl rfl⟩

theorem rejected_credentials_persisted_later :
    wifi_configs (effects_since
        (begin_wifi_connection wifi_connect_rejected sample_ssid sample_password started_service)
        (handle_wifi_event (WifiEvent.sta_got_ip sample_address)
          (begin_wifi_connection wifi_connect_rejected sample_ssid sample_password
            started_service)))
      = [(sample_ssid, sample_password)] := by
  decide

/-- C1, as stated, fails: on the started service, `begin_wifi_connection("net",
"key")` with `esp_wifi_set_config` rejecting the configuration, and in a second
run with `esp_wifi_connect` rejecting the call, returns with state `Authorized`
and error `UnableToConnect`, and the pending credentials are not empty: they
still hold `("net", "key")`. -/
theorem begin_wifi_connection_failure_keeps_pending :
    wifi_config_rejected.set_config ≠ ESP_OK
      ∧ (begin_wifi_connection wifi_config_rejected sample_ssid sample_password
        started_service)._state = State.STATE_AUTHORIZED
      ∧ (begin_wifi_connection wifi_config_rejected sample_ssid sample_password
        started_service)._error_state = Error.ERROR_UNABLE_TO_CONNECT
      ∧ (begin_wifi_connection wifi_config_rejected sample_ssid sample_password
        started_service)._pending_ssid = [110, 101, 116]
      ∧ (begin_wifi_connection wifi_config_rejected sample_ssid sample_password
        started_service)._pending_password = [107, 101, 121]
      ∧ (begin_wifi_connection wifi_config_rejected sample_ssid sample_password
        started_service)._pending_ssid ≠ []
      ∧ wifi_connect_rejected.connect ≠ ESP_OK
      ∧ (begin_wifi_connection wifi_connect_rejected sample_ssid sample_password
        started_service)._pending_ssid = [110, 101, 116]
      ∧ (begin_wifi_connection wifi_connect_rejected sample_ssid sample_password
        started_service)._pending_password = [107, 101, 121]
      ∧ (begin_wifi_connection wifi_connect_rejected sample_ssid sample_password
        started_service)._pending_ssid ≠ [] := by
  decide

/-- C1, amended: the failure path of `begin_wifi_connection`: for every service
value and every `(ssid, password)`, if `esp_wifi_set_config` or
`esp_wifi_connect` reports failure, then on return the state is `Authorized`
and the error is `UnableToConnect`; the pending credentials are not cleared,
they hold the `(ssid, password)` just passed in. -/
theorem begin_wifi_connection_failure (wifi : WifiResults) (ssid password : List Nat)
    (s : ImprovBleService) (hfail : wifi.set_config ≠ ESP_OK ∨ wifi.connect ≠ ESP_OK) :
    current_state (begin_wifi_connection wifi ssid password s) = State.STATE_AUTHORIZED
      ∧ current_error (begin_wifi_connection wifi ssid password s)
          = Error.ERROR_UNABLE_TO_CONNECT
      ∧ (begin_wifi_connection wifi ssid password s)._pending_ssid = ssid
      ∧ (begin_wifi_connection wifi ssid password s)._pending_password = password := by
  by_cases hconfig : wifi.set_config = ESP_OK
  · have hconnect : wifi.connect ≠ ESP_OK := by
      rcases hfail with h | h
      · exact absurd hconfig h
      · exact h
    exact begin_wifi_connection_connect_failure wifi ssid password s hconfig hconnect
  · exact begin_wifi_connection_config_failure wifi ssid password s hconfig

theorem begin_wifi_connection_failure_witness :
    (wifi_connect_rejected.set_config ≠ ESP_OK ∨ wifi_connect_rejected.connect ≠ ESP_OK)
      ∧ current_state (begin_wifi_connection wifi_connect_rejected sample_ssid sample_password
          started_service) = State.STATE_AUTHORIZED
      ∧ current_error (begin_wifi_connection wifi_connect_rejected sample_ssid sample_password
          started_service) = Error.ERROR_UNABLE_TO_CONNECT
      ∧ (begin_wifi_connection wifi_connect_rejected sample_ssid sample_password
          started_service)._pending_ssid = sample_ssid
      ∧ (begin_wifi_connection wifi_connect_rejected sample_ssid sample_password
          started_service)._pending_password = sample_password :=
  ⟨Or.inr (by decide),
   begin_wifi_connection_failure wifi_connect_rejected sample_ssid sample_password
     started_service (Or.inr (by decide))⟩

/-! ## Notifying the same state twice -/

/-- C4: no-op notify: with a status subscriber registered and the Status endpoint
created, `notify_state s` called twice in a row notifies the subscriber exactly
twice, once per call, each time with the snapshot `{s, current_error}`; the
second call makes no call on the Status endpoint, so across both calls the
endpoint is set and notified at most once (once when the prior state differed
from `s`, not at all when it already was `s`). -/
theorem notify_state_twice (state : State) (s : ImprovBleService)
    (hsubscriber : s._status_callback = true) (hendpoint : s._status_char = true) :
    subscriber_updates (effects_since s (notify_state state s))
        = [{ state := state, error := current_error s }]
      ∧ subscriber_updates (effects_since (notify_state state s)
          (notify_state state (notify_state state s)))
        = [{ state := state, error := current_error s }]
      ∧ subscriber_updates (effects_since s (notify_state state (notify_state state s)))
        = [{ state := state, error := current_error s },
           { state := state, error := current_error s }]
      ∧ status_writes (effects_since (notify_state state s)
          (notify_state state (notify_state state s))) = []
      ∧ status_writes (effects_since s (notify_state state (notify_state state s)))
        = (if current_state s = state then []
           else [Effect.status_setValue state.toByte, Effect.status_notify])
      ∧ (status_writes (effects_since s (notify_state state (notify_state state s)))).count
          (Effect.status_setValue state.toByte) ≤ 1 := by
  simp only [notify_state_eq, notify_state_effects, effects_since, current_error,
    current_state, hsubscriber, hendpoint]
  by_cases h : s._state = state <;>
    simp [h, subscriber_updates, status_writes, List.append_assoc]

theorem notify_state_twice_witness :
    subscriber_updates (effects_since
        { started_service with _status_callback := true }
        (notify_state State.STATE_PROVISIONING
          (notify_state State.STATE_PROVISIONING
            { started_service with _status_callback := true })))
      = [{ state := State.STATE_PROVISIONING, error := Error.ERROR_NONE },
         { state := State.STATE_PROVISIONING, error := Error.ERROR_NONE }]
    ∧ status_writes (effects_since
        { started_service with _status_callback := true }
        (notify_state State.STATE_PROVISIONING
          (notify_state State.STATE_PROVISIONING
            { started_service with _status_callback := true })))
      = [Effect.status_setValue 3, Effect.status_notify] :=
  ⟨(notify_state_twice State.STATE_PROVISIONING
      { started_service with _status_callback := true } rfl rfl).2.2.1,
   (notify_state_twice State.STATE_PROVISIONING
      { started_service with _status_callback := true } rfl rfl).2.2.2.2.1⟩

/-! ## Commands shorter than a frame -/

/-- C5: input validation: for every byte sequence of length 0, 1 or 2 and every
service value, `handle_improv_command` sets the error to `InvalidRpc`, writes no
result frame (neither a value nor a notification on the Result endpoint) and
leaves the state, the pending credentials and the advertising flag unchanged. -/
theorem handle_improv_command_too_short (parse_improv_data : List Nat → ImprovCommand)
    (wifi : WifiResults) (data : List Nat) (s : ImprovBleService) (hshort : data.length < 3) :
    current_error (handle_improv_command parse_improv_data wifi data s)
        = Error.ERROR_INVALID_RPC
      ∧ rpc_frames (effects_since s (handle_improv_command parse_improv_data wifi data s)) = []
      ∧ rpc_notifications
          (effects_since s (handle_improv_command parse_improv_data wifi data s)) = 0
      ∧ current_state (handle_improv_command parse_improv_data wifi data s) = current_state s
      ∧ (handle_improv_command parse_improv_data wifi data s)._pending_ssid = s._pending_ssid
      ∧ (handle_improv_command parse_improv_data wifi data s)._pending_password
          = s._pending_password
      ∧ (handle_improv_command parse_improv_data wifi data s)._advertising_enabled
          = s._advertising_enabled := by
  unfold handle_improv_command
  simp only [if_pos hshort, notify_error_eq, notify_error_effects, effects_since,
    current_error, current_state, List.drop_left, rpc_frames, rpc_notifications]
  split_ifs <;> simp

theorem handle_improv_command_too_short_witness :
    [1, 0].length < 3
      ∧ current_error (handle_improv_command (decode_as IDENTIFY) wifi_ok [1, 0] started_service)
          = Error.ERROR_INVALID_RPC
      ∧ rpc_frames (effects_since started_service
          (handle_improv_command (decode_as IDENTIFY) wifi_ok [1, 0] started_service)) = []
      ∧ current_state (handle_improv_command (decode_as IDENTIFY) wifi_ok [1, 0] started_service)
          = State.STATE_AUTHORIZED :=
  ⟨by decide,
   (handle_improv_command_too_short (decode_as IDENTIFY) wifi_ok [1, 0] started_service
      (by decide)).1,
   (handle_improv_command_too_short (decode_as IDENTIFY) wifi_ok [1, 0] started_service
      (by decide)).2.1,
   (handle_improv_command_too_short (decode_as IDENTIFY) wifi_ok [1, 0] started_service
      (by decide)).2.2.2.1⟩

/-! ## Frames the codec does not accept -/

/-- C6, as stated, fails: the frame `[3, 5, 8]` declares five payload bytes and
carries none; when the codec reports it under a code other than `BAD_CHECKSUM`
(here `0x00`), `handle_improv_command` takes the `default` branch and the error
is `UnknownRpc`, not `InvalidRpc`. -/
theorem misfit_frame_reports_unknown_rpc :
    3 ≤ sample_misfit_frame.length
      ∧ current_error
          (handle_improv_command (decode_as 0x00) wifi_ok sample_misfit_frame started_service)
        = Error.ERROR_UNKNOWN_RPC
      ∧ current_error
          (handle_improv_command (decode_as 0x00) wifi_ok sample_misfit_frame started_service)
        ≠ Error.ERROR_INVALID_RPC := by
  decide

/-- C6, amended: for every raw command of at least 3 bytes, if the codec reports
`BAD_CHECKSUM` then `handle_improv_command` sets the error to `InvalidRpc`,
writes no result frame and leaves the state unchanged; the dispatcher has no
other rejection outcome, and if the codec reports any code other than
`BAD_CHECKSUM`, `WIFI_SETTINGS`, `IDENTIFY` and `GET_DEVICE_INFO` the error is
`UnknownRpc`, again with no result frame and the state unchanged. -/
theorem handle_improv_command_rejected (parse_improv_data : List Nat → ImprovCommand)
    (wifi : WifiResults) (data : List Nat) (s : ImprovBleService) (hlen : 3 ≤ data.length) :
    ((parse_improv_data data).command = BAD_CHECKSUM →
        current_error (handle_improv_command parse_improv_data wifi data s)
            = Error.ERROR_INVALID_RPC
          ∧ rpc_frames
              (effects_since s (handle_improv_command parse_improv_data wifi data s)) = []
          ∧ rpc_notifications
              (effects_since s (handle_improv_command parse_improv_data wifi data s)) = 0
          ∧ current_state (handle_improv_command parse_improv_data wifi data s)
              = current_state s)
      ∧ ((parse_improv_data data).command ≠ BAD_CHECKSUM →
          (parse_improv_data data).command ≠ WIFI_SETTINGS →
          (parse_improv_data data).command ≠ IDENTIFY →
          (parse_improv_data data).command ≠ GET_DEVICE_INFO →
        current_error (handle_improv_command parse_improv_data wifi data s)
            = Error.ERROR_UNKNOWN_RPC
          ∧ rpc_frames
              (effects_since s (handle_improv_command parse_improv_data wifi data s)) = []
          ∧ rpc_notifications
              (effects_since s (handle_improv_command parse_improv_data wifi data s)) = 0
          ∧ current_state (handle_improv_command parse_improv_data wifi data s)
              = current_state s) := by
  have hnot : ¬ data.length < 3 := by omega
  constructor
  · intro hbad
    unfold handle_improv_command
    simp only [if_neg hnot, if_pos hbad, notify_error_eq, notify_error_effects, effects_since,
      current_error, current_state, List.drop_left, rpc_frames, rpc_notifications]
    split_ifs <;> simp
  · intro h1 h2 h3 h4
    unfold handle_improv_command
    simp only [if_neg hnot, if_neg h1, if_neg h2, if_neg h3, if_neg h4, notify_error_eq,
      notify_error_effects, effects_since, current_error, current_state, List.drop_left,
      rpc_frames, rpc_notifications]
    split_ifs <;> simp

theorem handle_improv_command_rejected_witness :
    3 ≤ sample_misfit_frame.length
      ∧ current_error (handle_improv_command (decode_as BAD_CHECKSUM) wifi_ok
          sample_misfit_frame started_service) = Error.ERROR_INVALID_RPC
      ∧ current_state (handle_improv_command (decode_as BAD_CHECKSUM) wifi_ok
          sample_misfit_frame started_service) = State.STATE_AUTHORIZED
      ∧ current_error (handle_improv_command (decode_as 0x07) wifi_ok
          sample_misfit_frame started_service) = Error.ERROR_UNKNOWN_RPC :=
  ⟨by decide,
   ((handle_improv_command_rejected (decode_as BAD_CHECKSUM) wifi_ok sample_misfit_frame
      started_service (by decide)).1 rfl).1,
   ((handle_improv_command_rejected (decode_as BAD_CHECKSUM) wifi_ok sample_misfit_frame
      started_service (by decide)).1 rfl).2.2.2,
   ((handle_improv_command_rejected (decode_as 0x07) wifi_ok sample_misfit_frame
      started_service (by decide)).2 (by decide) (by decide) (by decide) (by decide)).1⟩

/-! ## The device-info response -/

theorem decode_fields_encode (fields : List (List Nat))
    (hbyte : ∀ f ∈ fields, f.length < 256) (fuel : Nat) (hfuel : fields.length ≤ fuel) :
    decode_fields fuel (fields.map (fun str => (str.length % 256) :: str)).flatten
      = some fields := by
  induction fields generalizing fuel with
  | nil => cases fuel <;> simp [decode_fields]
  | cons f rest ih =>
    have hf : f.length < 256 := hbyte f (List.mem_cons_self f rest)
    have hrest : ∀ g ∈ rest, g.length < 256 := fun g hg => hbyte g (List.mem_cons_of_mem f hg)
    cases fuel with
    | zero => simp at hfuel
    | succ n =>
      have hn : rest.length ≤ n := by simpa using hfuel
      simp [decode_fields, Nat.mod_eq_of_lt hf, ih hrest n hn]

theorem encoded_fields_length (fields : List (List Nat)) :
    ((fields.map (fun str => (str.length % 256) :: str)).flatten).length
      = (fields.map (fun str => str.length + 1)).sum := by
  induction fields with
  | nil => simp
  | cons f rest ih =>
    simp only [List.map_cons, List.flatten_cons, List.length_append, List.length_cons,
      List.sum_cons, ih]

theorem fields_le_encoded_length (fields : List (List Nat)) :
    fields.length ≤ (fields.map (fun str => str.length + 1)).sum := by
  induction fields with
  | nil => simp
  | cons f rest ih => simp; omega

theorem length_sum_mod (fields : List (List Nat)) (hbyte : ∀ f ∈ fields, f.length < 256) :
    (fields.map (fun str => str.length % 256 + 1)).sum
      = (fields.map (fun str => str.length + 1)).sum := by
  induction fields with
  | nil => simp
  | cons f rest ih =>
    have hf : f.length < 256 := hbyte f (List.mem_cons_self f rest)
    have hrest : ∀ g ∈ rest, g.length < 256 := fun g hg => hbyte g (List.mem_cons_of_mem f hg)
    simp [ih hrest, Nat.mod_eq_of_lt hf]

theorem decode_rpc_response_frame (command length : Nat) (body : List Nat)
    (fields : List (List Nat)) (hlength : body.length = length)
    (hdec : decode_fields body.length body = some fields) :
    decode_rpc_response ((command :: length :: body) ++ [(command :: length :: body).sum % 256])
      = some (command, fields) := by
  have hdrop : (command :: length :: (body ++ [(command :: length :: body).sum % 256])).dropLast
      = command :: length :: body := by
    show ((command :: length :: body) ++ [(command :: length :: body).sum % 256]).dropLast
      = command :: length :: body
    exact List.dropLast_concat
  have hdrop2 : (body ++ [(command :: length :: body).sum % 256]).dropLast = body :=
    List.dropLast_concat
  simp only [List.cons_append, decode_rpc_response, hdrop, hdrop2, hlength]
  simp [← hlength, hdec]

theorem decode_build_rpc_response (command : Command) (fields : List (List Nat))
    (hcommand : command < 256)
    (hfit : (fields.map (fun str => str.length + 1)).sum < 256) :
    decode_rpc_response (build_rpc_response command fields) = some (command, fields) := by
  have hbyte : ∀ f ∈ fields, f.length < 256 := by
    intro f hf
    have := List.single_le_sum (fun x _ => Nat.zero_le x) _
      (List.mem_map_of_mem (fun str : List Nat => str.length + 1) hf)
    simp only at this
    omega
  have hlen := encoded_fields_length fields
  have hsum := length_sum_mod fields hbyte
  have hdec := decode_fields_encode fields hbyte _
    (le_of_le_of_eq (fields_le_encoded_length fields) hlen.symm)
  unfold build_rpc_response
  simp only [hsum, Nat.mod_eq_of_lt hcommand, Nat.mod_eq_of_lt hfit]
  exact decode_rpc_response_frame command _ _ fields hlen hdec

theorem get_device_info_response (parse_improv_data : List Nat → ImprovCommand)
    (wifi : WifiResults) (data : List Nat) (s : ImprovBleService)
    (hlen : 3 ≤ data.length)
    (hcommand : (parse_improv_data data).command = GET_DEVICE_INFO)
    (hendpoint : s._rpc_result_char = true)
    (hfit : s._device_info.firmware_name.length + s._device_info.firmware_version.length
      + s._device_info.hardware_variant.length + s._device_info.device_name.length + 4 < 256) :
    current_error (handle_improv_command parse_improv_data wifi data s) = Error.ERROR_NONE
      ∧ current_state (handle_improv_command parse_improv_data wifi data s) = current_state s
      ∧ rpc_frames (effects_since s (handle_improv_command parse_improv_data wifi data s))
          = [build_rpc_response GET_DEVICE_INFO
              [s._device_info.firmware_name, s._device_info.firmware_version,
               s._device_info.hardware_variant, s._device_info.device_name]]
      ∧ rpc_notifications
          (effects_since s (handle_improv_command parse_improv_data wifi data s)) = 1
      ∧ decode_rpc_response (build_rpc_response GET_DEVICE_INFO
              [s._device_info.firmware_name, s._device_info.firmware_version,
               s._device_info.hardware_variant, s._device_info.device_name])
          = some (GET_DEVICE_INFO,
              [s._device_info.firmware_name, s._device_info.firmware_version,
               s._device_info.hardware_variant, s._device_info.device_name]) := by
  have hnot : ¬ data.length < 3 := by omega
  have hframe : build_rpc_response GET_DEVICE_INFO
      [s._device_info.firmware_name, s._device_info.firmware_version,
       s._device_info.hardware_variant, s._device_info.device_name] ≠ [] := by
    simp [build_rpc_response]
  refine ⟨?_, ?_, ?_, ?_, ?_⟩
  · unfold handle_improv_command
    simp [hnot, hcommand, GET_DEVICE_INFO, BAD_CHECKSUM, WIFI_SETTINGS, IDENTIFY,
      send_rpc_response_eq, notify_error_eq, current_error]
  · unfold handle_improv_command
    simp [hnot, hcommand, GET_DEVICE_INFO, BAD_CHECKSUM, WIFI_SETTINGS, IDENTIFY,
      send_rpc_response_eq, notify_error_eq, current_state]
  · unfold handle_improv_command
    simp only [if_neg hnot, hcommand, GET_DEVICE_INFO, BAD_CHECKSUM, WIFI_SETTINGS, IDENTIFY,
      send_rpc_response_eq, notify_error_eq, effects_since, send_rpc_effects,
      notify_error_effects, hendpoint]
    split_ifs <;> simp_all [rpc_frames]
  · unfold handle_improv_command
    simp only [if_neg hnot, hcommand, GET_DEVICE_INFO, BAD_CHECKSUM, WIFI_SETTINGS, IDENTIFY,
      send_rpc_response_eq, notify_error_eq, effects_since, send_rpc_effects,
      notify_error_effects, hendpoint]
    split_ifs <;> simp_all [rpc_notifications, build_rpc_response]
  · apply decode_build_rpc_response
    · decide
    · simp only [List.map_cons, List.map_nil, List.sum_cons, List.sum_nil]
      omega

/-! ## The address-acquired event -/

/-- C2, as stated, fails for a service value without a Result endpoint: a first
`start()` fails in `createService`, a second `start()` finds the server present
and returns `ESP_OK` with the event handlers registered; an address-acquired
event for "192.0.2.5" then sets state and error, and `send_rpc_response` returns
at its guard, so no result frame reaches the Result endpoint. -/
theorem address_acquired_without_endpoint :
    (start ble_no_service events_ok (ImprovBleService.new sample_info)).1 = ESP_FAIL
      ∧ (start ble_ok events_ok
          (start ble_no_service events_ok (ImprovBleService.new sample_info)).2).1 = ESP_OK
      ∧ restarted_without_endpoints._ip_event_handler = true
      ∧ current_state (handle_wifi_event (WifiEvent.sta_got_ip sample_address)
          restarted_without_endpoints) = State.STATE_PROVISIONED
      ∧ rpc_frames (effects_since restarted_without_endpoints
          (handle_wifi_event (WifiEvent.sta_got_ip sample_address)
            restarted_without_endpoints)) = []
      ∧ rpc_frames (effects_since restarted_without_endpoints
          (handle_wifi_event (WifiEvent.sta_got_ip sample_address)
            restarted_without_endpoints))
        ≠ [build_rpc_response WIFI_SETTINGS [http_scheme ++ sample_address]] := by
  decide

theorem rpc_frames_append (xs ys : List Effect) :
    rpc_frames (xs ++ ys) = rpc_frames xs ++ rpc_frames ys := by
  simp [rpc_frames, List.filterMap_append]

theorem rpc_notifications_append (xs ys : List Effect) :
    rpc_notifications (xs ++ ys) = rpc_notifications xs + rpc_notifications ys := by
  simp [rpc_notifications, List.count_append]

theorem wifi_configs_append (xs ys : List Effect) :
    wifi_configs (xs ++ ys) = wifi_configs xs ++ wifi_configs ys := by
  simp [wifi_configs, List.filterMap_append]

theorem notify_state_effects_silent (state : State) (s : ImprovBleService) :
    rpc_frames (notify_state_effects state s) = []
      ∧ rpc_notifications (notify_state_effects state s) = 0
      ∧ wifi_configs (notify_state_effects state s) = [] := by
  unfold notify_state_effects
  split_ifs <;> simp [rpc_frames, rpc_notifications, wifi_configs]

theorem notify_error_effects_silent (error : Error) (s : ImprovBleService) :
    rpc_frames (notify_error_effects error s) = []
      ∧ rpc_notifications (notify_error_effects error s) = 0
      ∧ wifi_configs (notify_error_effects error s) = [] := by
  unfold notify_error_effects
  split_ifs <;> simp [rpc_frames, rpc_notifications, wifi_configs]

theorem send_rpc_effects_frames (payload : List Nat) (s : ImprovBleService)
    (hendpoint : s._rpc_result_char = true) (hpayload : payload ≠ []) :
    rpc_frames (send_rpc_effects payload s) = [payload]
      ∧ rpc_notifications (send_rpc_effects payload s) = 1
      ∧ wifi_configs (send_rpc_effects payload s) = [] := by
  simp [send_rpc_effects, hendpoint, hpayload, rpc_frames, rpc_notifications, wifi_configs]

theorem send_rpc_effects_configs (payload : List Nat) (s : ImprovBleService) :
    wifi_configs (send_rpc_effects payload s) = [] := by
  unfold send_rpc_effects
  split_ifs <;> simp [wifi_configs]

theorem build_rpc_response_ne_nil (command : Command) (datum : List (List Nat)) :
    build_rpc_response command datum ≠ [] := by
  simp [build_rpc_response]

theorem persist_pending_eq (s : ImprovBleService) :
    persist_pending s =
      { s with
        _pending_ssid := []
        _pending_password := []
        trace := s.trace ++ persist_effects s } := by
  rcases s with ⟨di, cb, sv, svc, sc, ec, rc, rrc, cc, adv, rcb, scb, st, er, cap, ae, weh, ieh,
    ps, pp, stv, erv, isadv, tr⟩
  cases ps <;> cases pp <;> simp [persist_pending, persist_effects, ImprovBleService.emit]

theorem disable_advertising_eq (s : ImprovBleService) :
    disable_advertising s =
      { s with
        _advertising_enabled := false
        isAdvertising := s.isAdvertising && !s._advertising
        trace := s.trace ++ disable_effects s } := by
  rcases s with ⟨di, cb, sv, svc, sc, ec, rc, rrc, cc, adv, rcb, scb, st, er, cap, ae, weh, ieh,
    ps, pp, stv, erv, isadv, tr⟩
  cases adv <;> cases isadv <;>
    simp [disable_advertising, disable_effects, ImprovBleService.emit]

theorem handle_wifi_event_got_ip (a : List Nat) (s : ImprovBleService) :
    handle_wifi_event (WifiEvent.sta_got_ip a) s =
      disable_advertising (persist_pending
        (send_rpc_response
          (build_rpc_response WIFI_SETTINGS (if a.length > 0 then [http_scheme ++ a] else []))
          (notify_state State.STATE_PROVISIONED (notify_error Error.ERROR_NONE s)))) := by
  rfl

theorem persist_effects_frames (s : ImprovBleService) :
    rpc_frames (persist_effects s) = [] ∧ rpc_notifications (persist_effects s) = 0 := by
  unfold persist_effects
  split_ifs <;> simp [rpc_frames, rpc_notifications]

theorem disable_effects_silent (s : ImprovBleService) :
    rpc_frames (disable_effects s) = [] ∧ rpc_notifications (disable_effects s) = 0
      ∧ wifi_configs (disable_effects s) = [] := by
  unfold disable_effects
  split_ifs <;> simp [rpc_frames, rpc_notifications, wifi_configs]

/-- C2, amended: address-acquired event: for every service value whose Result
endpoint has been created and every address text `a`, handling
`IP_EVENT_STA_GOT_IP` leaves error `None`, state `Provisioned`, the pending
credentials empty and the advertising-enabled flag false; it writes exactly one
result frame to the Result endpoint, notified once, equal to
`build_rpc_response(WIFI_SETTINGS, ["http://" + a])` when `a` is non-empty and to
`build_rpc_response(WIFI_SETTINGS, [])` when `a` is empty; and it hands the
pending credentials to `esp_wifi_set_config` exactly when a pending ssid or
password was held before the event. -/
theorem address_acquired (a : List Nat) (s : ImprovBleService)
    (hendpoint : s._rpc_result_char = true) :
    current_error (handle_wifi_event (WifiEvent.sta_got_ip a) s) = Error.ERROR_NONE
      ∧ current_state (handle_wifi_event (WifiEvent.sta_got_ip a) s) = State.STATE_PROVISIONED
      ∧ (handle_wifi_event (WifiEvent.sta_got_ip a) s)._pending_ssid = []
      ∧ (handle_wifi_event (WifiEvent.sta_got_ip a) s)._pending_password = []
      ∧ (handle_wifi_event (WifiEvent.sta_got_ip a) s)._advertising_enabled = false
      ∧ rpc_frames (effects_since s (handle_wifi_event (WifiEvent.sta_got_ip a) s))
          = [build_rpc_response WIFI_SETTINGS (if a = [] then [] else [http_scheme ++ a])]
      ∧ rpc_notifications (effects_since s (handle_wifi_event (WifiEvent.sta_got_ip a) s)) = 1
      ∧ wifi_configs (effects_since s (handle_wifi_event (WifiEvent.sta_got_ip a) s))
          = (if s._pending_ssid = [] ∧ s._pending_password = [] then []
             else [(strncpy s._pending_ssid (sizeof_sta_ssid - 1),
                    strncpy s._pending_password (sizeof_sta_password - 1))]) := by
  have hurls : (if a.length > 0 then [http_scheme ++ a] else ([] : List (List Nat)))
      = (if a = [] then [] else [http_scheme ++ a]) := by
    cases a <;> simp
  simp only [handle_wifi_event_got_ip, disable_advertising_eq, persist_pending_eq,
    notify_state_eq, notify_error_eq, send_rpc_response_eq, current_error, current_state,
    effects_since, hurls, List.append_assoc, List.drop_left, true_and]
  refine ⟨?_, ?_, ?_⟩
  · simp only [rpc_frames_append, notify_state_effects_silent, notify_error_effects_silent,
      persist_effects_frames, disable_effects_silent, List.nil_append, List.append_nil]
    exact (send_rpc_effects_frames _ _ hendpoint (build_rpc_response_ne_nil _ _)).1
  · simp only [rpc_notifications_append, notify_state_effects_silent,
      notify_error_effects_silent, persist_effects_frames, disable_effects_silent, zero_add,
      add_zero]
    exact (send_rpc_effects_frames _ _ hendpoint (build_rpc_response_ne_nil _ _)).2.1
  · simp only [wifi_configs_append, notify_state_effects_silent, notify_error_effects_silent,
      disable_effects_silent, send_rpc_effects_configs, List.nil_append, List.append_nil]
    unfold persist_effects
    simp only
    split_ifs <;> simp [wifi_configs]

theorem address_acquired_witness :
    provisioning_service._rpc_result_char = true
      ∧ current_state (handle_wifi_event (WifiEvent.sta_got_ip sample_address)
          provisioning_service) = State.STATE_PROVISIONED
      ∧ rpc_frames (effects_since provisioning_service
          (handle_wifi_event (WifiEvent.sta_got_ip sample_address) provisioning_service))
        = [[1, 17, 16, 104, 116, 116, 112, 58, 47, 47, 49, 57, 50, 46, 48, 46, 50, 46, 53, 55]]
      ∧ wifi_configs (effects_since provisioning_service
          (handle_wifi_event (WifiEvent.sta_got_ip sample_address) provisioning_service))
        = [(sample_ssid, sample_password)] :=
  ⟨by decide,
   (address_acquired sample_address provisioning_service (by decide)).2.1,
   (address_acquired sample_address provisioning_service (by decide)).2.2.2.2.2.1,
   (address_acquired sample_address provisioning_service (by decide)).2.2.2.2.2.2.2⟩

/-! ## The advertised payload -/

theorem adv_payloads_append (xs ys : List Effect) :
    adv_payloads (xs ++ ys) = adv_payloads xs ++ adv_payloads ys := by
  simp [adv_payloads, List.filterMap_append]

theorem same_wiring_refl (s : ImprovBleService) : same_wiring s s :=
  ⟨rfl, rfl, rfl, rfl, rfl⟩

theorem same_wiring_trans {s1 s2 s3 : ImprovBleService} (h12 : same_wiring s1 s2)
    (h23 : same_wiring s2 s3) : same_wiring s1 s3 :=
  ⟨h23.1.trans h12.1, h23.2.1.trans h12.2.1, h23.2.2.1.trans h12.2.2.1,
    h23.2.2.2.1.trans h12.2.2.2.1, h23.2.2.2.2.trans h12.2.2.2.2⟩

theorem same_wiring_emit (s : ImprovBleService) (e : Effect)
    (he : ∀ d, e ≠ Effect.setAdvertisementData d) : same_wiring s (s.emit e) := by
  refine ⟨?_, rfl, rfl, rfl, rfl⟩
  cases e <;> simp_all [ImprovBleService.emit, adv_payloads_append, adv_payloads]

theorem same_wiring_dispatch (s : ImprovBleService) :
    same_wiring s (dispatch_status_update s) := by
  unfold dispatch_status_update
  split_ifs
  · exact same_wiring_refl s
  · exact same_wiring_emit s _ (fun _ h => Effect.noConfusion h)

theorem same_wiring_notify_state (state : State) (s : ImprovBleService) :
    same_wiring s (notify_state state s) := by
  have h : adv_payloads (notify_state_effects state s) = [] := by
    unfold notify_state_effects
    split_ifs <;> simp [adv_payloads]
  simp [same_wiring, notify_state_eq, adv_payloads_append, h]

theorem same_wiring_notify_error (error : Error) (s : ImprovBleService) :
    same_wiring s (notify_error error s) := by
  have h : adv_payloads (notify_error_effects error s) = [] := by
    unfold notify_error_effects
    split_ifs <;> simp [adv_payloads]
  simp [same_wiring, notify_error_eq, adv_payloads_append, h]

theorem same_wiring_send_rpc_response (payload : List Nat) (s : ImprovBleService) :
    same_wiring s (send_rpc_response payload s) := by
  have h : adv_payloads (send_rpc_effects payload s) = [] := by
    unfold send_rpc_effects
    split_ifs <;> simp [adv_payloads]
  simp [same_wiring, send_rpc_response_eq, adv_payloads_append, h]

theorem same_wiring_persist_pending (s : ImprovBleService) :
    same_wiring s (persist_pending s) := by
  have h : adv_payloads (persist_effects s) = [] := by
    unfold persist_effects
    split_ifs <;> simp [adv_payloads]
  simp [same_wiring, persist_pending_eq, adv_payloads_append, h]

theorem same_wiring_disable_advertising (s : ImprovBleService) :
    same_wiring s (disable_advertising s) := by
  have h : adv_payloads (disable_effects s) = [] := by
    unfold disable_effects
    split_ifs <;> simp [adv_payloads]
  simp [same_wiring, disable_advertising_eq, adv_payloads_append, h]

theorem same_wiring_ensure_advertising (s : ImprovBleService) :
    same_wiring s (ensure_advertising s) := by
  unfold ensure_advertising
  split_ifs
  · exact same_wiring_refl s
  · simp [same_wiring, ImprovBleService.emit, adv_payloads_append, adv_payloads]
  · exact same_wiring_refl s

theorem same_wiring_begin_wifi_connection (wifi : WifiResults) (ssid password : List Nat)
    (s : ImprovBleService) : same_wiring s (begin_wifi_connection wifi ssid password s) := by
  have h1 : same_wiring s { s with _pending_ssid := ssid, _pending_password := password } :=
    ⟨rfl, rfl, rfl, rfl, rfl⟩
  have h2 := same_wiring_trans h1 (same_wiring_notify_state State.STATE_PROVISIONING _)
  have h3 := same_wiring_trans h2 (same_wiring_notify_error Error.ERROR_NONE _)
  have h4 := same_wiring_trans h3
    (same_wiring_emit _ Effect.esp_wifi_set_mode (fun _ h => Effect.noConfusion h))
  have h5 := same_wiring_trans h4
    (same_wiring_emit _ (Effect.esp_wifi_set_config (strncpy ssid (sizeof_sta_ssid - 1))
      (strncpy password (sizeof_sta_password - 1))) (fun _ h => Effect.noConfusion h))
  unfold begin_wifi_connection
  simp only
  split_ifs
  · exact same_wiring_trans (same_wiring_trans h5
      (same_wiring_notify_error Error.ERROR_UNABLE_TO_CONNECT _))
      (same_wiring_notify_state State.STATE_AUTHORIZED _)
  · have h6 := same_wiring_trans h5
      (same_wiring_emit _ Effect.esp_wifi_connect (fun _ h => Effect.noConfusion h))
    exact same_wiring_trans (same_wiring_trans h6
      (same_wiring_notify_error Error.ERROR_UNABLE_TO_CONNECT _))
      (same_wiring_notify_state State.STATE_AUTHORIZED _)
  · exact same_wiring_trans h5
      (same_wiring_emit _ Effect.esp_wifi_connect (fun _ h => Effect.noConfusion h))

theorem same_wiring_handle_improv_command (parse_improv_data : List Nat → ImprovCommand)
    (wifi : WifiResults) (data : List Nat) (s : ImprovBleService) :
    same_wiring s (handle_improv_command parse_improv_data wifi data s) := by
  unfold handle_improv_command
  simp only
  split_ifs
  · exact same_wiring_notify_error _ s
  · exact same_wiring_notify_error _ s
  · exact same_wiring_begin_wifi_connection wifi _ _ s
  · exact same_wiring_refl s
  · exact same_wiring_trans (same_wiring_notify_error _ s) (same_wiring_send_rpc_response _ _)
  · exact same_wiring_notify_error _ s

theorem same_wiring_handle_wifi_event (event : WifiEvent) (s : ImprovBleService) :
    same_wiring s (handle_wifi_event event s) := by
  cases event with
  | sta_start =>
    unfold handle_wifi_event
    simp only
    split_ifs
    · exact same_wiring_emit s _ (fun _ h => Effect.noConfusion h)
    · exact same_wiring_refl s
  | sta_got_ip a =>
    rw [handle_wifi_event_got_ip]
    exact same_wiring_trans (same_wiring_trans (same_wiring_trans (same_wiring_trans
      (same_wiring_notify_error _ s) (same_wiring_notify_state _ _))
      (same_wiring_send_rpc_response _ _)) (same_wiring_persist_pending _))
      (same_wiring_disable_advertising _)
  | other => exact same_wiring_refl s

theorem same_wiring_stop (s : ImprovBleService) : same_wiring s (stop s) := by
  have h : stop s = notify_error Error.ERROR_NONE
      (notify_state State.STATE_STOPPED (disable_advertising s)) := rfl
  rw [h]
  exact same_wiring_trans (same_wiring_trans (same_wiring_disable_advertising s)
    (same_wiring_notify_state _ _)) (same_wiring_notify_error _ _)

theorem same_wiring_step (parse_improv_data : List Nat → ImprovCommand) (input : Input)
    (s : ImprovBleService) (hstart : ∀ ble ev, input ≠ Input.start ble ev) :
    same_wiring s (step parse_improv_data input s) := by
  cases input with
  | start ble ev => exact absurd rfl (hstart ble ev)
  | stop => exact same_wiring_stop s
  | set_status_callback cb =>
    have h : same_wiring s { s with _status_callback := cb } := ⟨rfl, rfl, rfl, rfl, rfl⟩
    exact same_wiring_trans h (same_wiring_dispatch _)
  | command wifi data => exact same_wiring_handle_improv_command parse_improv_data wifi data s
  | wifi_event event => exact same_wiring_handle_wifi_event event s
  | disconnect => exact same_wiring_ensure_advertising s

theorem same_wiring_run (parse_improv_data : List Nat → ImprovCommand) (inputs : List Input)
    (s : ImprovBleService) (hstart : ∀ input ∈ inputs, ∀ ble ev, input ≠ Input.start ble ev) :
    same_wiring s (run parse_improv_data inputs s) := by
  induction inputs generalizing s with
  | nil => exact same_wiring_refl s
  | cons input rest ih =>
    have hhead := same_wiring_step parse_improv_data input s
      (hstart input (List.mem_cons_self input rest))
    have htail := ih (step parse_improv_data input s)
      (fun i hi => hstart i (List.mem_cons_of_mem input hi))
    exact same_wiring_trans hhead htail

theorem advertisement_written_only_by_start (parse_improv_data : List Nat → ImprovCommand)
    (inputs : List Input) (s : ImprovBleService)
    (hstart : ∀ input ∈ inputs, ∀ ble ev, input ≠ Input.start ble ev) :
    advertised_service_data (run parse_improv_data inputs s) = advertised_service_data s := by
  unfold advertised_service_data
  rw [(same_wiring_run parse_improv_data inputs s hstart).1]

theorem callbacks_wired_of_same_wiring {s s' : ImprovBleService} (h : same_wiring s s')
    (hwired : callbacks_wired s) : callbacks_wired s' := by
  unfold callbacks_wired at *
  rw [h.2.1, h.2.2.1, h.2.2.2.1]
  exact hwired

theorem callbacks_wired_ensure_server (ble : NimBLEResults) (s : ImprovBleService)
    (hwired : callbacks_wired s) : callbacks_wired (ensure_server ble s).2 := by
  unfold callbacks_wired at *
  unfold ensure_server
  simp only [ImprovBleService.emit]
  split_ifs <;> simp_all

theorem register_event_handlers_wiring (ev : EventLoopResults) (s : ImprovBleService) :
    (register_event_handlers ev s).2._rpc_callbacks = s._rpc_callbacks
      ∧ (register_event_handlers ev s).2._rpc_result_char = s._rpc_result_char
      ∧ (register_event_handlers ev s).2._server = s._server := by
  unfold register_event_handlers
  simp only
  split_ifs <;> simp

theorem callbacks_wired_start (ble : NimBLEResults) (ev : EventLoopResults)
    (s : ImprovBleService) (hwired : callbacks_wired s) :
    callbacks_wired (start ble ev s).2 := by
  have h1 := callbacks_wired_ensure_server ble s hwired
  have h2 : callbacks_wired (register_event_handlers ev (ensure_server ble s).2).2 := by
    unfold callbacks_wired at *
    rw [(register_event_handlers_wiring ev _).1, (register_event_handlers_wiring ev _).2.1,
      (register_event_handlers_wiring ev _).2.2]
    exact h1
  unfold start
  simp only
  split_ifs
  · exact h1
  · exact h2
  · have h3 : callbacks_wired
        { (register_event_handlers ev (ensure_server ble s).2).2 with
          _advertising_enabled := true } := h2
    have h4 := callbacks_wired_of_same_wiring (same_wiring_notify_error Error.ERROR_NONE _) h3
    have h5 := callbacks_wired_of_same_wiring
      (same_wiring_notify_state State.STATE_AUTHORIZED _) h4
    have h6 : callbacks_wired (update_advertisement_payload
        (notify_state State.STATE_AUTHORIZED (notify_error Error.ERROR_NONE
          { (register_event_handlers ev (ensure_server ble s).2).2 with
            _advertising_enabled := true }))) := by
      unfold callbacks_wired at *
      unfold update_advertisement_payload
      simp only [ImprovBleService.emit]
      split_ifs <;> simpa using h5
    exact callbacks_wired_of_same_wiring (same_wiring_ensure_advertising _) h6

theorem callbacks_wired_step (parse_improv_data : List Nat → ImprovCommand) (input : Input)
    (s : ImprovBleService) (hwired : callbacks_wired s) :
    callbacks_wired (step parse_improv_data input s) := by
  cases input with
  | start ble ev => exact callbacks_wired_start ble ev s hwired
  | stop =>
    exact callbacks_wired_of_same_wiring
      (same_wiring_step parse_improv_data Input.stop s (fun _ _ h => Input.noConfusion h)) hwired
  | set_status_callback cb =>
    exact callbacks_wired_of_same_wiring
      (same_wiring_step parse_improv_data (Input.set_status_callback cb) s
        (fun _ _ h => Input.noConfusion h)) hwired
  | command wifi data =>
    exact callbacks_wired_of_same_wiring
      (same_wiring_step parse_improv_data (Input.command wifi data) s
        (fun _ _ h => Input.noConfusion h)) hwired
  | wifi_event event =>
    exact callbacks_wired_of_same_wiring
      (same_wiring_step parse_improv_data (Input.wifi_event event) s
        (fun _ _ h => Input.noConfusion h)) hwired
  | disconnect =>
    exact callbacks_wired_of_same_wiring
      (same_wiring_step parse_improv_data Input.disconnect s
        (fun _ _ h => Input.noConfusion h)) hwired

theorem start_device_info (ble : NimBLEResults) (ev : EventLoopResults)
    (s : ImprovBleService) : (start ble ev s).2._device_info = s._device_info := by
  have h1 : (ensure_server ble s).2._device_info = s._device_info := by
    unfold ensure_server
    simp only [ImprovBleService.emit]
    split_ifs <;> rfl
  have h2 : ∀ s' : ImprovBleService,
      (register_event_handlers ev s').2._device_info = s'._device_info := by
    intro s'
    unfold register_event_handlers
    simp only
    split_ifs <;> rfl
  have h3 : ∀ s' : ImprovBleService,
      (update_advertisement_payload s')._device_info = s'._device_info := by
    intro s'
    unfold update_advertisement_payload
    simp only [ImprovBleService.emit]
    split_ifs <;> rfl
  unfold start
  simp only
  split_ifs
  · exact h1
  · exact (h2 _).trans h1
  · rw [(same_wiring_ensure_advertising _).2.2.2.2, h3,
      (same_wiring_notify_state _ _).2.2.2.2, (same_wiring_notify_error _ _).2.2.2.2]
    exact (h2 _).trans h1

theorem step_device_info (parse_improv_data : List Nat → ImprovCommand) (input : Input)
    (s : ImprovBleService) : (step parse_improv_data input s)._device_info = s._device_info := by
  cases input with
  | start ble ev => exact start_device_info ble ev s
  | stop =>
    exact (same_wiring_step parse_improv_data Input.stop s
      (fun _ _ h => Input.noConfusion h)).2.2.2.2
  | set_status_callback cb =>
    exact (same_wiring_step parse_improv_data (Input.set_status_callback cb) s
      (fun _ _ h => Input.noConfusion h)).2.2.2.2
  | command wifi data =>
    exact (same_wiring_step parse_improv_data (Input.command wifi data) s
      (fun _ _ h => Input.noConfusion h)).2.2.2.2
  | wifi_event event =>
    exact (same_wiring_step parse_improv_data (Input.wifi_event event) s
      (fun _ _ h => Input.noConfusion h)).2.2.2.2
  | disconnect =>
    exact (same_wiring_step parse_improv_data Input.disconnect s
      (fun _ _ h => Input.noConfusion h)).2.2.2.2

theorem run_device_info (parse_improv_data : List Nat → ImprovCommand) (inputs : List Input)
    (s : ImprovBleService) : (run parse_improv_data inputs s)._device_info = s._device_info := by
  induction inputs generalizing s with
  | nil => rfl
  | cons input rest ih =>
    exact (ih (step parse_improv_data input s)).trans (step_device_info parse_improv_data input s)

theorem write_callback_implies_result_endpoint
    (parse_improv_data : List Nat → ImprovCommand) (info : DeviceInfo) (inputs : List Input) :
    callbacks_wired (run parse_improv_data inputs (ImprovBleService.new info)) := by
  have hnew : callbacks_wired (ImprovBleService.new info) := by
    intro h
    simp [ImprovBleService.new] at h
  have hrun : ∀ (inputs : List Input) (s : ImprovBleService), callbacks_wired s →
      callbacks_wired (run parse_improv_data inputs s) := by
    intro inputs
    induction inputs with
    | nil => exact fun s h => h
    | cons input rest ih =>
      exact fun s h => ih (step parse_improv_data input s)
        (callbacks_wired_step parse_improv_data input s h)
  exact hrun inputs _ hnew

theorem notify_state_keeps_advertisement (state : State) (s : ImprovBleService) :
    advertised_service_data (notify_state state s) = advertised_service_data s := by
  unfold advertised_service_data
  rw [(same_wiring_notify_state state s).1]

/-- C8, as stated, fails: a fresh service is started successfully (the
advertised service data is `[2, 0, 0, 0, 0, 0]`, the byte of `Authorized`), then
a `WifiSettings` command is accepted: advertising is still enabled, the state
is `Provisioning` with byte 3, and the advertised service data is still
`[2, 0, 0, 0, 0, 0]`; `notify_state` does not recompute it. -/
theorem advertised_payload_stale_after_state_change :
    (start ble_ok events_ok (ImprovBleService.new sample_info)).1 = ESP_OK
      ∧ advertised_service_data started_service = some [2, 0, 0, 0, 0, 0]
      ∧ provisioning_service._advertising_enabled = true
      ∧ current_state provisioning_service = State.STATE_PROVISIONING
      ∧ (current_state provisioning_service).toByte = 3
      ∧ provisioning_service._capabilities = 0
      ∧ advertised_service_data provisioning_service = some [2, 0, 0, 0, 0, 0]
      ∧ advertised_service_data provisioning_service
          ≠ some [(current_state provisioning_service).toByte,
                  provisioning_service._capabilities, 0, 0, 0, 0] := by
  decide

/-! ## Once provisioned -/

theorem ensure_advertising_state (s : ImprovBleService) :
    (ensure_advertising s)._state = s._state := by
  unfold ensure_advertising
  split_ifs <;> simp [ImprovBleService.emit]

theorem handle_improv_command_state (parse_improv_data : List Nat → ImprovCommand)
    (wifi : WifiResults) (data : List Nat) (s : ImprovBleService)
    (hother : ¬ (3 ≤ data.length ∧ (parse_improv_data data).command = WIFI_SETTINGS)) :
    (handle_improv_command parse_improv_data wifi data s)._state = s._state := by
  unfold handle_improv_command
  by_cases hshort : data.length < 3
  · simp [hshort, notify_error_eq]
  · have hcommand : (parse_improv_data data).command ≠ WIFI_SETTINGS := by
      intro h
      exact hother ⟨by omega, h⟩
    simp only [if_neg hshort, if_neg hcommand]
    split_ifs <;> simp [notify_error_eq, send_rpc_response_eq]

theorem handle_wifi_event_provisioned (event : WifiEvent) (s : ImprovBleService)
    (hprovisioned : s._state = State.STATE_PROVISIONED) :
    (handle_wifi_event event s)._state = State.STATE_PROVISIONED := by
  cases event with
  | sta_start => simp [handle_wifi_event, hprovisioned]
  | sta_got_ip a =>
    simp [handle_wifi_event_got_ip, disable_advertising_eq, persist_pending_eq,
      notify_state_eq, notify_error_eq, send_rpc_response_eq]
  | other => simpa [handle_wifi_event] using hprovisioned

/-- C10: `Provisioned` is never rolled back automatically: from every service
value whose state is `Provisioned`, every input other than `start()`, `stop()`
and a command of at least 3 bytes that the codec reports as `WIFI_SETTINGS`
(so: a too-short command, a bad-checksum command, `Identify`, `GetDeviceInfo`,
an unknown command, a station-started event, an address-acquired event, any
other network event, a new subscriber, a client disconnect) leaves the state
`Provisioned`. -/
theorem provisioned_not_rolled_back (parse_improv_data : List Nat → ImprovCommand)
    (input : Input) (s : ImprovBleService)
    (hprovisioned : current_state s = State.STATE_PROVISIONED)
    (hstart : ∀ ble ev, input ≠ Input.start ble ev)
    (hstop : input ≠ Input.stop)
    (hwifi : ∀ wifi data, input = Input.command wifi data →
      ¬ (3 ≤ data.length ∧ (parse_improv_data data).command = WIFI_SETTINGS)) :
    current_state (step parse_improv_data input s) = State.STATE_PROVISIONED := by
  unfold current_state at *
  cases input with
  | start ble ev => exact absurd rfl (hstart ble ev)
  | stop => exact absurd rfl hstop
  | set_status_callback cb =>
    simp [step, set_status_callback, dispatch_status_update_eq, hprovisioned]
  | command wifi data =>
    simp only [step]
    rw [handle_improv_command_state parse_improv_data wifi data s (hwifi wifi data rfl)]
    exact hprovisioned
  | wifi_event event => exact handle_wifi_event_provisioned event s hprovisioned
  | disconnect =>
    simp only [step, onDisconnect]
    rw [ensure_advertising_state]
    exact hprovisioned

theorem provisioned_not_rolled_back_witness :
    current_state provisioned_service = State.STATE_PROVISIONED
      ∧ current_state (step (decode_as GET_DEVICE_INFO)
          (Input.command wifi_ok sample_device_info_frame) provisioned_service)
        = State.STATE_PROVISIONED :=
  ⟨by decide,
   provisioned_not_rolled_back (decode_as GET_DEVICE_INFO)
     (Input.command wifi_ok sample_device_info_frame) provisioned_service (by decide)
     (fun _ _ h => Input.noConfusion h) (fun h => Input.noConfusion h)
     (fun _ _ h => by
        cases h
        decide)⟩

/-! ## The device-info round trip -/

/-- C7: device-info round trip: for every `DeviceInfo` supplied at construction
whose four fields fit one frame, and every service state reached from
construction by any sequence of inputs in which the RPC write callback is
installed (the callback through which a command is dispatched), a command of at
least 3 bytes that the codec reports as `GET_DEVICE_INFO` sets the error to
`None`, leaves the state unchanged and writes exactly one result frame,
notified once; the frame is `build_rpc_response(GET_DEVICE_INFO, ...)` and its
length-prefixed field list, read back per the response layout, is exactly
`[firmware_name, firmware_version, hardware_variant, device_name]`. -/
theorem get_device_info_round_trip (parse_improv_data : List Nat → ImprovCommand)
    (wifi : WifiResults) (info : DeviceInfo) (inputs : List Input) (data : List Nat)
    (hfit : info.firmware_name.length + info.firmware_version.length
      + info.hardware_variant.length + info.device_name.length + 4 < 256)
    (hinstalled :
      (run parse_improv_data inputs (ImprovBleService.new info))._rpc_callbacks = true)
    (hlen : 3 ≤ data.length)
    (hcommand : (parse_improv_data data).command = GET_DEVICE_INFO) :
    current_error (handle_improv_command parse_improv_data wifi data
        (run parse_improv_data inputs (ImprovBleService.new info))) = Error.ERROR_NONE
      ∧ current_state (handle_improv_command parse_improv_data wifi data
          (run parse_improv_data inputs (ImprovBleService.new info)))
        = current_state (run parse_improv_data inputs (ImprovBleService.new info))
      ∧ rpc_frames (effects_since (run parse_improv_data inputs (ImprovBleService.new info))
          (handle_improv_command parse_improv_data wifi data
            (run parse_improv_data inputs (ImprovBleService.new info))))
        = [build_rpc_response GET_DEVICE_INFO
            [info.firmware_name, info.firmware_version, info.hardware_variant,
             info.device_name]]
      ∧ rpc_notifications
          (effects_since (run parse_improv_data inputs (ImprovBleService.new info))
            (handle_improv_command parse_improv_data wifi data
              (run parse_improv_data inputs (ImprovBleService.new info)))) = 1
      ∧ decode_rpc_response (build_rpc_response GET_DEVICE_INFO
            [info.firmware_name, info.firmware_version, info.hardware_variant,
             info.device_name])
        = some (GET_DEVICE_INFO,
            [info.firmware_name, info.firmware_version, info.hardware_variant,
             info.device_name]) := by
  have hinfo : (run parse_improv_data inputs (ImprovBleService.new info))._device_info = info :=
    run_device_info parse_improv_data inputs (ImprovBleService.new info)
  have hendpoint :=
    (write_callback_implies_result_endpoint parse_improv_data info inputs hinstalled).2
  have h := get_device_info_response parse_improv_data wifi data
    (run parse_improv_data inputs (ImprovBleService.new info)) hlen hcommand hendpoint
    (by rw [hinfo]; exact hfit)
  rw [hinfo] at h
  exact h

theorem get_device_info_round_trip_witness :
    (run (decode_as GET_DEVICE_INFO) [Input.start ble_ok events_ok]
        (ImprovBleService.new sample_info))._rpc_callbacks = true
      ∧ 3 ≤ sample_device_info_frame.length
      ∧ rpc_frames (effects_since
          (run (decode_as GET_DEVICE_INFO) [Input.start ble_ok events_ok]
            (ImprovBleService.new sample_info))
          (handle_improv_command (decode_as GET_DEVICE_INFO) wifi_ok sample_device_info_frame
            (run (decode_as GET_DEVICE_INFO) [Input.start ble_ok events_ok]
              (ImprovBleService.new sample_info))))
        = [[3, 12, 2, 102, 119, 1, 49, 2, 104, 119, 3, 100, 101, 118, 67]]
      ∧ decode_rpc_response [3, 12, 2, 102, 119, 1, 49, 2, 104, 119, 3, 100, 101, 118, 67]
        = some (GET_DEVICE_INFO, [[102, 119], [49], [104, 119], [100, 101, 118]]) :=
  ⟨by decide, by decide,
   (get_device_info_round_trip (decode_as GET_DEVICE_INFO) wifi_ok sample_info
      [Input.start ble_ok events_ok] sample_device_info_frame (by decide) (by decide)
      (by decide) rfl).2.2.1,
   (get_device_info_round_trip (decode_as GET_DEVICE_INFO) wifi_ok sample_info
      [Input.start ble_ok events_ok] sample_device_info_frame (by decide) (by decide)
      (by decide) rfl).2.2.2.2⟩

/-! ## The advertised payload after start -/

theorem ensure_server_new_ok (ble : NimBLEResults) (info : DeviceInfo)
    (hok : (ensure_server ble (ImprovBleService.new info)).1 = ESP_OK) : ble = ble_ok := by
  rcases ble with ⟨b1, b2, b3, b4, b5, b6, b7⟩
  cases b1 <;> cases b2 <;> cases b3 <;> cases b4 <;> cases b5 <;> cases b6 <;> cases b7 <;>
    simp [ensure_server, ImprovBleService.new, ImprovBleService.emit, ESP_OK, ESP_FAIL,
      ble_ok] at hok ⊢

theorem start_new_advertisement (info : DeviceInfo) (ble : NimBLEResults)
    (ev : EventLoopResults) (hok : (start ble ev (ImprovBleService.new info)).1 = ESP_OK) :
    advertised_service_data (start ble ev (ImprovBleService.new info)).2
      = some [State.STATE_AUTHORIZED.toByte, 0, 0, 0, 0, 0] := by
  have hserver : (ensure_server ble (ImprovBleService.new info)).1 = ESP_OK := by
    by_contra h
    have : (start ble ev (ImprovBleService.new info)).1
        = (ensure_server ble (ImprovBleService.new info)).1 := by
      simp [start, h]
    exact h (this ▸ hok)
  have hble := ensure_server_new_ok ble info hserver
  subst hble
  rcases ev with ⟨e1, e2⟩
  by_cases h1 : e1 = ESP_OK
  · by_cases h2 : e2 = ESP_OK
    · subst h1 h2
      cases hname : info.device_name <;>
        simp [start, ensure_server, register_event_handlers, ImprovBleService.new, ble_ok,
          ESP_OK, ESP_FAIL, notify_state_eq, notify_error_eq, notify_state_effects,
          notify_error_effects, update_advertisement_payload, ensure_advertising,
          ImprovBleService.emit, advertised_service_data, adv_payloads, State.toByte,
          Error.toByte, hname]
    · exfalso
      simp [start, ensure_server, register_event_handlers, ImprovBleService.new, ble_ok,
        ImprovBleService.emit, h1, h2] at hok
  · exfalso
    simp [start, ensure_server, register_event_handlers, ImprovBleService.new, ble_ok,
      ImprovBleService.emit, h1] at hok

/-- C8, amended: the discovery payload is fixed at start: after a successful
`start()` of a freshly constructed service the advertiser holds the 6-byte
service data `[status_byte, capabilities, 0, 0, 0, 0]` with the byte of
`Authorized` and capabilities 0, and after any further sequence of commands,
network events, `stop()`, subscriber changes and disconnects (no second
`start()`) it still holds exactly that payload: it is not recomputed when the
state changes, and it is never rewritten while advertising is disabled. -/
theorem advertised_payload_fixed_at_start (parse_improv_data : List Nat → ImprovCommand)
    (info : DeviceInfo) (ble : NimBLEResults) (ev : EventLoopResults) (inputs : List Input)
    (hok : (start ble ev (ImprovBleService.new info)).1 = ESP_OK)
    (hstart : ∀ input ∈ inputs, input.is_start = false) :
    advertised_service_data
        (run parse_improv_data inputs (start ble ev (ImprovBleService.new info)).2)
      = some [State.STATE_AUTHORIZED.toByte, 0, 0, 0, 0, 0] := by
  have hne : ∀ input ∈ inputs, ∀ ble' ev', input ≠ Input.start ble' ev' := by
    intro input hmem ble' ev' heq
    have h := hstart input hmem
    rw [heq] at h
    exact Bool.noConfusion h
  rw [advertisement_written_only_by_start parse_improv_data inputs _ hne]
  exact start_new_advertisement info ble ev hok

theorem advertised_payload_fixed_at_start_witness :
    (start ble_ok events_ok (ImprovBleService.new sample_info)).1 = ESP_OK
      ∧ current_state (run decode_as_wifi_settings
          [Input.command wifi_ok sample_wifi_frame,
           Input.wifi_event (WifiEvent.sta_got_ip sample_address)]
          (start ble_ok events_ok (ImprovBleService.new sample_info)).2)
        = State.STATE_PROVISIONED
      ∧ advertised_service_data (run decode_as_wifi_settings
          [Input.command wifi_ok sample_wifi_frame,
           Input.wifi_event (WifiEvent.sta_got_ip sample_address)]
          (start ble_ok events_ok (ImprovBleService.new sample_info)).2)
        = some [2, 0, 0, 0, 0, 0] :=
  ⟨by decide, by decide,
   advertised_payload_fixed_at_start decode_as_wifi_settings sample_info ble_ok events_ok
     [Input.command wifi_ok sample_wifi_frame,
      Input.wifi_event (WifiEvent.sta_got_ip sample_address)]
     (by decide) (by decide)⟩

/-! ## Wire bytes mirror state and error -/

theorem status_values_append (xs ys : List Effect) :
    status_values (xs ++ ys) = status_values xs ++ status_values ys := by
  simp [status_values, List.filterMap_append]

theorem error_values_append (xs ys : List Effect) :
    error_values (xs ++ ys) = error_values xs ++ error_values ys := by
  simp [error_values, List.filterMap_append]

theorem same_bytes_refl (s : ImprovBleService) : same_bytes s s :=
  ⟨rfl, rfl, rfl, rfl, rfl, rfl, rfl, rfl, rfl⟩

theorem same_bytes_trans {s1 s2 s3 : ImprovBleService} (h12 : same_bytes s1 s2)
    (h23 : same_bytes s2 s3) : same_bytes s1 s3 := by
  obtain ⟨a1, a2, a3, a4, a5, a6, a7, a8, a9⟩ := h12
  obtain ⟨b1, b2, b3, b4, b5, b6, b7, b8, b9⟩ := h23
  exact ⟨b1.trans a1, b2.trans a2, b3.trans a3, b4.trans a4, b5.trans a5, b6.trans a6,
    b7.trans a7, b8.trans a8, b9.trans a9⟩

theorem wire_ok_of_same_bytes {s s' : ImprovBleService} (h : same_bytes s s')
    (hw : wire_ok s) : wire_ok s' := by
  obtain ⟨a1, a2, a3, a4, a5, a6, a7, a8, a9⟩ := h
  unfold wire_ok at *
  rw [a1, a2, a3, a4, a5, a6, a7, a8, a9]
  exact hw

theorem same_bytes_append (s : ImprovBleService) (es : List Effect)
    (hstatus : status_values es = []) (herror : error_values es = []) :
    same_bytes s { s with trace := s.trace ++ es } := by
  refine ⟨rfl, rfl, rfl, rfl, rfl, rfl, rfl, ?_, ?_⟩
  · simp [status_values_append, hstatus]
  · simp [error_values_append, herror]

theorem same_bytes_emit (s : ImprovBleService) (e : Effect)
    (hstatus : status_values [e] = []) (herror : error_values [e] = []) :
    same_bytes s (s.emit e) :=
  same_bytes_append s [e] hstatus herror

theorem notify_state_effects_values (state : State) (s : ImprovBleService) :
    status_values (notify_state_effects state s)
        = (if s._state = state then [] else if s._status_char then [state.toByte] else [])
      ∧ error_values (notify_state_effects state s) = [] := by
  unfold notify_state_effects
  split_ifs <;> simp [status_values, error_values]

theorem notify_error_effects_values (error : Error) (s : ImprovBleService) :
    error_values (notify_error_effects error s)
        = (if s._error_state = error then [] else if s._error_char then [error.toByte] else [])
      ∧ status_values (notify_error_effects error s) = [] := by
  unfold notify_error_effects
  split_ifs <;> simp [status_values, error_values]

theorem wire_ok_notify_state (state : State) (s : ImprovBleService) (hw : wire_ok s) :
    wire_ok (notify_state state s) := by
  obtain ⟨h1, h2, h3, h4, h5, h6⟩ := hw
  rw [notify_state_eq]
  unfold wire_ok
  simp only [status_values_append, error_values_append, notify_state_effects_values,
    List.append_nil]
  refine ⟨?_, h2, h3, h4, ?_, h6⟩
  · by_cases h : s._state = state
    · simp only [if_pos h]
      rw [← h]
      exact h1
    · simp only [if_neg h]
  · by_cases h : s._state = state
    · simp only [if_pos h, List.append_nil]
      exact h5
    · simp only [if_neg h]
      by_cases hc : s._status_char = true
      · right
        simp [hc]
      · rcases h5 with h5 | ⟨_, hchar⟩
        · left
          simp [hc, h5]
        · exact absurd hchar hc

theorem wire_ok_notify_error (error : Error) (s : ImprovBleService) (hw : wire_ok s) :
    wire_ok (notify_error error s) := by
  obtain ⟨h1, h2, h3, h4, h5, h6⟩ := hw
  rw [notify_error_eq]
  unfold wire_ok
  simp only [status_values_append, error_values_append, notify_error_effects_values,
    List.append_nil]
  refine ⟨h1, ?_, h3, h4, h5, ?_⟩
  · by_cases h : s._error_state = error
    · simp only [if_pos h]
      rw [← h]
      exact h2
    · simp only [if_neg h]
  · by_cases h : s._error_state = error
    · simp only [if_pos h, List.append_nil]
      exact h6
    · simp only [if_neg h]
      by_cases hc : s._error_char = true
      · right
        simp [hc]
      · rcases h6 with h6 | ⟨_, hchar⟩
        · left
          simp [hc, h6]
        · exact absurd hchar hc

theorem same_bytes_dispatch (s : ImprovBleService) :
    same_bytes s (dispatch_status_update s) := by
  rw [dispatch_status_update_eq]
  apply same_bytes_append <;>
    (unfold dispatch_effects; split_ifs <;> simp [status_values, error_values])

theorem same_bytes_send_rpc_response (payload : List Nat) (s : ImprovBleService) :
    same_bytes s (send_rpc_response payload s) := by
  rw [send_rpc_response_eq]
  apply same_bytes_append <;>
    (unfold send_rpc_effects; split_ifs <;> simp [status_values, error_values])

theorem same_bytes_persist_pending (s : ImprovBleService) :
    same_bytes s (persist_pending s) := by
  have hs : status_values (persist_effects s) = [] := by
    unfold persist_effects
    split_ifs <;> simp [status_values]
  have he : error_values (persist_effects s) = [] := by
    unfold persist_effects
    split_ifs <;> simp [error_values]
  rw [persist_pending_eq]
  exact ⟨rfl, rfl, rfl, rfl, rfl, rfl, rfl, by simp [status_values_append, hs],
    by simp [error_values_append, he]⟩

theorem same_bytes_disable_advertising (s : ImprovBleService) :
    same_bytes s (disable_advertising s) := by
  have hs : status_values (disable_effects s) = [] := by
    unfold disable_effects
    split_ifs <;> simp [status_values]
  have he : error_values (disable_effects s) = [] := by
    unfold disable_effects
    split_ifs <;> simp [error_values]
  rw [disable_advertising_eq]
  exact ⟨rfl, rfl, rfl, rfl, rfl, rfl, rfl, by simp [status_values_append, hs],
    by simp [error_values_append, he]⟩

theorem same_bytes_ensure_advertising (s : ImprovBleService) :
    same_bytes s (ensure_advertising s) := by
  unfold ensure_advertising
  split_ifs
  · exact same_bytes_refl s
  · exact ⟨rfl, rfl, rfl, rfl, rfl, rfl, rfl,
      by simp [ImprovBleService.emit, status_values_append, status_values],
      by simp [ImprovBleService.emit, error_values_append, error_values]⟩
  · exact same_bytes_refl s

theorem same_bytes_update_advertisement_payload (s : ImprovBleService) :
    same_bytes s (update_advertisement_payload s) := by
  unfold update_advertisement_payload
  simp only [ImprovBleService.emit]
  split_ifs <;>
    exact ⟨rfl, rfl, rfl, rfl, rfl, rfl, rfl,
      by simp [status_values_append, status_values],
      by simp [error_values_append, error_values]⟩

theorem same_bytes_register_event_handlers (ev : EventLoopResults) (s : ImprovBleService) :
    same_bytes s (register_event_handlers ev s).2 := by
  unfold register_event_handlers
  simp only
  split_ifs <;> exact ⟨rfl, rfl, rfl, rfl, rfl, rfl, rfl, rfl, rfl⟩

theorem wire_ok_ensure_server (ble : NimBLEResults) (s : ImprovBleService) (hw : wire_ok s) :
    wire_ok (ensure_server ble s).2 := by
  obtain ⟨h1, h2, h3, h4, h5, h6⟩ := hw
  by_cases hserver : s._server = true
  · simp only [ensure_server, hserver, if_true]
    exact ⟨h1, h2, h3, h4, h5, h6⟩
  · have hsc : s._status_char = false := by
      cases hc : s._status_char
      · rfl
      · exact absurd (h3 hc) hserver
    have hec : s._error_char = false := by
      cases hc : s._error_char
      · rfl
      · exact absurd (h4 hc) hserver
    have hsv : status_values s.trace = [] := by
      rcases h5 with h5 | ⟨_, hchar⟩
      · exact h5
      · rw [hsc] at hchar
        exact Bool.noConfusion hchar
    have hev : error_values s.trace = [] := by
      rcases h6 with h6 | ⟨_, hchar⟩
      · exact h6
      · rw [hec] at hchar
        exact Bool.noConfusion hchar
    have hfalse : s._server = false := by
      cases hc : s._server
      · rfl
      · exact absurd hc hserver
    unfold ensure_server wire_ok
    simp only [hfalse, ImprovBleService.emit]
    split_ifs <;>
      simp_all [status_values_append, error_values_append, status_values, error_values]

theorem wire_ok_begin_wifi_connection (wifi : WifiResults) (ssid password : List Nat)
    (s : ImprovBleService) (hw : wire_ok s) :
    wire_ok (begin_wifi_connection wifi ssid password s) := by
  have h1 : wire_ok { s with _pending_ssid := ssid, _pending_password := password } := hw
  have h2 := wire_ok_notify_state State.STATE_PROVISIONING _ h1
  have h3 := wire_ok_notify_error Error.ERROR_NONE _ h2
  have h4 := wire_ok_of_same_bytes (same_bytes_emit _ Effect.esp_wifi_set_mode rfl rfl) h3
  have h5 := wire_ok_of_same_bytes
    (same_bytes_emit _ (Effect.esp_wifi_set_config (strncpy ssid (sizeof_sta_ssid - 1))
      (strncpy password (sizeof_sta_password - 1))) rfl rfl) h4
  unfold begin_wifi_connection
  simp only
  split_ifs
  · exact wire_ok_notify_state _ _ (wire_ok_notify_error _ _ h5)
  · exact wire_ok_notify_state _ _ (wire_ok_notify_error _ _
      (wire_ok_of_same_bytes (same_bytes_emit _ Effect.esp_wifi_connect rfl rfl) h5))
  · exact wire_ok_of_same_bytes (same_bytes_emit _ Effect.esp_wifi_connect rfl rfl) h5

theorem wire_ok_handle_improv_command (parse_improv_data : List Nat → ImprovCommand)
    (wifi : WifiResults) (data : List Nat) (s : ImprovBleService) (hw : wire_ok s) :
    wire_ok (handle_improv_command parse_improv_data wifi data s) := by
  unfold handle_improv_command
  simp only
  split_ifs
  · exact wire_ok_notify_error _ s hw
  · exact wire_ok_notify_error _ s hw
  · exact wire_ok_begin_wifi_connection wifi _ _ s hw
  · exact hw
  · exact wire_ok_of_same_bytes (same_bytes_send_rpc_response _ _)
      (wire_ok_notify_error Error.ERROR_NONE s hw)
  · exact wire_ok_notify_error _ s hw

theorem wire_ok_handle_wifi_event (event : WifiEvent) (s : ImprovBleService)
    (hw : wire_ok s) : wire_ok (handle_wifi_event event s) := by
  cases event with
  | sta_start =>
    unfold handle_wifi_event
    simp only
    split_ifs
    · exact wire_ok_of_same_bytes (same_bytes_emit s Effect.esp_wifi_connect rfl rfl) hw
    · exact hw
  | sta_got_ip a =>
    rw [handle_wifi_event_got_ip]
    exact wire_ok_of_same_bytes (same_bytes_disable_advertising _)
      (wire_ok_of_same_bytes (same_bytes_persist_pending _)
        (wire_ok_of_same_bytes (same_bytes_send_rpc_response _ _)
          (wire_ok_notify_state _ _ (wire_ok_notify_error _ s hw))))
  | other => exact hw

theorem wire_ok_stop (s : ImprovBleService) (hw : wire_ok s) : wire_ok (stop s) := by
  have h : stop s = notify_error Error.ERROR_NONE
      (notify_state State.STATE_STOPPED (disable_advertising s)) := rfl
  rw [h]
  exact wire_ok_notify_error _ _ (wire_ok_notify_state _ _
    (wire_ok_of_same_bytes (same_bytes_disable_advertising s) hw))

theorem wire_ok_set_status_callback (cb : Bool) (s : ImprovBleService) (hw : wire_ok s) :
    wire_ok (set_status_callback cb s) := by
  have h : wire_ok { s with _status_callback := cb } := hw
  exact wire_ok_of_same_bytes (same_bytes_dispatch _) h

theorem wire_ok_start (ble : NimBLEResults) (ev : EventLoopResults) (s : ImprovBleService)
    (hw : wire_ok s) : wire_ok (start ble ev s).2 := by
  have h1 := wire_ok_ensure_server ble s hw
  have h2 := wire_ok_of_same_bytes (same_bytes_register_event_handlers ev _) h1
  unfold start
  simp only
  split_ifs
  · exact h1
  · exact h2
  · have h3 : wire_ok { (register_event_handlers ev (ensure_server ble s).2).2 with
        _advertising_enabled := true } := h2
    exact wire_ok_of_same_bytes (same_bytes_ensure_advertising _)
      (wire_ok_of_same_bytes (same_bytes_update_advertisement_payload _)
        (wire_ok_notify_state _ _ (wire_ok_notify_error _ _ h3)))

theorem wire_ok_step (parse_improv_data : List Nat → ImprovCommand) (input : Input)
    (s : ImprovBleService) (hw : wire_ok s) : wire_ok (step parse_improv_data input s) := by
  cases input with
  | start ble ev => exact wire_ok_start ble ev s hw
  | stop => exact wire_ok_stop s hw
  | set_status_callback cb => exact wire_ok_set_status_callback cb s hw
  | command wifi data => exact wire_ok_handle_improv_command parse_improv_data wifi data s hw
  | wifi_event event => exact wire_ok_handle_wifi_event event s hw
  | disconnect => exact wire_ok_of_same_bytes (same_bytes_ensure_advertising s) hw

theorem wire_ok_apply_operation (parse_improv_data : List Nat → ImprovCommand)
    (op : Operation) (s : ImprovBleService) (hw : wire_ok s) :
    wire_ok (apply_operation parse_improv_data op s) := by
  cases op with
  | input i => exact wire_ok_step parse_improv_data i s hw
  | notify_state state => exact wire_ok_notify_state state s hw
  | notify_error error => exact wire_ok_notify_error error s hw

theorem wire_ok_new (info : DeviceInfo) : wire_ok (ImprovBleService.new info) := by
  refine ⟨rfl, rfl, ?_, ?_, Or.inl rfl, Or.inl rfl⟩
  · intro h
    exact Bool.noConfusion h
  · intro h
    exact Bool.noConfusion h

theorem wire_ok_run_operations (parse_improv_data : List Nat → ImprovCommand)
    (ops : List Operation) (s : ImprovBleService) (hw : wire_ok s) :
    wire_ok (run_operations parse_improv_data ops s) := by
  induction ops generalizing s with
  | nil => exact hw
  | cons op rest ih =>
    exact ih (apply_operation parse_improv_data op s)
      (wire_ok_apply_operation parse_improv_data op s hw)

/-- C11, as stated, fails for the discovery payload: after a successful `start()`,
an accepted `WifiSettings` command and a client disconnect, advertising is
enabled, the state is `Provisioning`, the cached status byte and the value on
the Status endpoint are both 3, and the discovery payload still carries status
byte 2: it disagrees with `current_state()`. -/
theorem discovery_payload_disagrees_with_state :
    (run_operations decode_as_wifi_settings sample_operations
        (ImprovBleService.new sample_info))._advertising_enabled = true
      ∧ current_state (run_operations decode_as_wifi_settings sample_operations
          (ImprovBleService.new sample_info)) = State.STATE_PROVISIONING
      ∧ (run_operations decode_as_wifi_settings sample_operations
          (ImprovBleService.new sample_info))._status_value = 3
      ∧ published_status (run_operations decode_as_wifi_settings sample_operations
          (ImprovBleService.new sample_info)) = some 3
      ∧ advertised_service_data (run_operations decode_as_wifi_settings sample_operations
          (ImprovBleService.new sample_info)) = some [2, 0, 0, 0, 0, 0]
      ∧ (advertised_service_data (run_operations decode_as_wifi_settings sample_operations
          (ImprovBleService.new sample_info))).bind List.head?
        ≠ some (current_state (run_operations decode_as_wifi_settings sample_operations
          (ImprovBleService.new sample_info))).toByte := by
  decide

/-- C11, amended: wire bytes mirror the enumerated values: in the initial service
state and after every sequence of operations (`start`, `stop`, `notify_state`,
`notify_error`, `handle_improv_command`, `handle_wifi_event`,
`set_status_callback`, a disconnect), the cached status byte equals the numeric
value of the current state and the cached error byte equals the numeric value
of the current error; the value last written to the Status endpoint, if any,
is the byte of `current_state()` and the value last written to the Error
endpoint, if any, is the byte of `current_error()`; and a discovery payload
written by `update_advertisement_payload` at that point carries the byte of the
current state. -/
theorem wire_bytes_mirror (parse_improv_data : List Nat → ImprovCommand) (info : DeviceInfo)
    (ops : List Operation) :
    (run_operations parse_improv_data ops (ImprovBleService.new info))._status_value
        = (current_state
            (run_operations parse_improv_data ops (ImprovBleService.new info))).toByte
      ∧ (run_operations parse_improv_data ops (ImprovBleService.new info))._error_value
        = (current_error
            (run_operations parse_improv_data ops (ImprovBleService.new info))).toByte
      ∧ (published_status (run_operations parse_improv_data ops (ImprovBleService.new info))
            = none
          ∨ published_status (run_operations parse_improv_data ops (ImprovBleService.new info))
            = some (current_state
                (run_operations parse_improv_data ops (ImprovBleService.new info))).toByte)
      ∧ (published_error (run_operations parse_improv_data ops (ImprovBleService.new info))
            = none
          ∨ published_error (run_operations parse_improv_data ops (ImprovBleService.new info))
            = some (current_error
                (run_operations parse_improv_data ops (ImprovBleService.new info))).toByte)
      ∧ (adv_payloads (effects_since
            (run_operations parse_improv_data ops (ImprovBleService.new info))
            (update_advertisement_payload
              (run_operations parse_improv_data ops (ImprovBleService.new info)))) = []
          ∨ adv_payloads (effects_since
            (run_operations parse_improv_data ops (ImprovBleService.new info))
            (update_advertisement_payload
              (run_operations parse_improv_data ops (ImprovBleService.new info))))
            = [[(current_state
                  (run_operations parse_improv_data ops (ImprovBleService.new info))).toByte,
                (run_operations parse_improv_data ops (ImprovBleService.new info))._capabilities,
                0, 0, 0, 0]]) := by
  obtain ⟨h1, h2, _, _, h5, h6⟩ :=
    wire_ok_run_operations parse_improv_data ops _ (wire_ok_new info)
  generalize run_operations parse_improv_data ops (ImprovBleService.new info) = s at *
  unfold current_state current_error published_status published_error
  refine ⟨h1, h2, ?_, ?_, ?_⟩
  · rcases h5 with h5 | ⟨h5, _⟩
    · left
      rw [h5]
      rfl
    · right
      rw [h5, h1]
  · rcases h6 with h6 | ⟨h6, _⟩
    · left
      rw [h6]
      rfl
    · right
      rw [h6, h2]
  · unfold update_advertisement_payload effects_since
    simp only [ImprovBleService.emit]
    split_ifs
    · left
      simp [adv_payloads]
    · right
      simp [adv_payloads, List.append_assoc, h1, List.replicate]
    · right
      simp [adv_payloads, List.append_assoc, h1, List.replicate]

end improv_ble
